import Mathlib

/-!
# Verification of the gofpdi PDF importer (reader + rewriter)

This file is a shallow embedding, in Lean 4, of the parts of the
`boxesandglue/gofpdi` repository that the verified claims are about:

* the Reader (`const.go`, package `reader`): tokenizer, value parser,
  xref-table / xref-stream acquisition, indirect-object resolution and
  page queries;
* the PNG filter helper (`filterPaeth`, `isNumeric`);
* the Rewriter (`writer.go`, package `gofpdi`) and the older hash-mode
  rewriter (the unnamed source file with `useHash`), plus the importer
  facade (`importer.go`).

Modelling conventions (stated once, used throughout):

* Go machine integers are modelled as `Int` (overflow is ignored: all
  inputs of interest are tiny), Go `float64` as `ℚ` (no claim below
  depends on rounding), byte values as `Nat` with explicit `% 256`
  where the source masks with `& 0xff`.
* Fallible Go code returns `Except String`; a Go `panic` (nil-pointer
  dereference) is modelled as an `Except.error`.
* Go maps are association lists; insertion conses in front and lookup
  takes the first hit, which models Go's overwrite semantics.  Go map
  iteration order is nondeterministic; the model iterates dictionaries
  in insertion order (a determinization, harmless for the claims).
* The seekable byte stream is a `Strm`: a list of characters plus a
  cursor.  `bufio.Reader` is modelled as reading bytes one at a time
  (buffer size one); the reader's save/restore of the seek position is
  what the claims are about, not buffering.
* Library functions that the repository only calls (zlib inflate and
  deflate, SHA-1, float formatting, cos and sin) are abstracted as an
  explicit record of pure functions (`Ext`) threaded through the model;
  nothing about their behaviour is assumed except where a claim needs
  the documented 40-character length of a hex SHA-1 digest, which then
  appears as an explicit hypothesis.
* Unbounded Go loops take an explicit fuel argument; theorems either
  quantify over fuel or supply a concrete sufficient amount.
-/

set_option maxRecDepth 4000

namespace reader

/-- PDF type tags, from `const.go` (iota starting at 0). -/
def PDFTypeNull : Int := 0

/-- Numeric type tag. -/
def PDFTypeNumeric : Int := 1

/-- Token (name) type tag. -/
def PDFTypeToken : Int := 2

/-- Hex string type tag. -/
def PDFTypeHex : Int := 3

/-- Literal string type tag. -/
def PDFTypeString : Int := 4

/-- Dictionary type tag. -/
def PDFTypeDictionary : Int := 5

/-- Array type tag. -/
def PDFTypeArray : Int := 6

/-- Object definition header type tag. -/
def PDFTypeObjDec : Int := 7

/-- Indirect reference type tag. -/
def PDFTypeObjRef : Int := 8

/-- Resolved object type tag. -/
def PDFTypeObject : Int := 9

/-- Stream type tag. -/
def PDFTypeStream : Int := 10

/-- Boolean type tag. -/
def PDFTypeBoolean : Int := 11

/-- Real (decimal) type tag. -/
def PDFTypeReal : Int := 12

/-- The `PdfValue` struct of `const.go`: one record holding every field,
with zero values for the unused ones, exactly like the Go struct.  The
`Value` and `Stream` pointer fields become `Option`; `Dictionary`
becomes an association list. -/
inductive PdfValue where
  | mk (type : Int) (string : String) (token : String) (int : Int) (real : ℚ)
       (bool : Bool) (dictionary : List (String × PdfValue)) (array : List PdfValue)
       (id : Int) (newID : Int) (gen : Int) (value : Option PdfValue)
       (stream : Option PdfValue) (bytes : List Nat)

namespace PdfValue

/-- Field accessor: `Type`. -/
def type : PdfValue → Int
  | .mk t _ _ _ _ _ _ _ _ _ _ _ _ _ => t

/-- Field accessor: `String`. -/
def str : PdfValue → String
  | .mk _ s _ _ _ _ _ _ _ _ _ _ _ _ => s

/-- Field accessor: `Token`. -/
def token : PdfValue → String
  | .mk _ _ tk _ _ _ _ _ _ _ _ _ _ _ => tk

/-- Field accessor: `Int`. -/
def int : PdfValue → Int
  | .mk _ _ _ i _ _ _ _ _ _ _ _ _ _ => i

/-- Field accessor: `Real`. -/
def real : PdfValue → ℚ
  | .mk _ _ _ _ r _ _ _ _ _ _ _ _ _ => r

/-- Field accessor: `Bool`. -/
def bool : PdfValue → Bool
  | .mk _ _ _ _ _ b _ _ _ _ _ _ _ _ => b

/-- Field accessor: `Dictionary`. -/
def dictionary : PdfValue → List (String × PdfValue)
  | .mk _ _ _ _ _ _ d _ _ _ _ _ _ _ => d

/-- Field accessor: `Array`. -/
def array : PdfValue → List PdfValue
  | .mk _ _ _ _ _ _ _ a _ _ _ _ _ _ => a

/-- Field accessor: `ID`. -/
def id : PdfValue → Int
  | .mk _ _ _ _ _ _ _ _ i _ _ _ _ _ => i

/-- Field accessor: `NewID`. -/
def newID : PdfValue → Int
  | .mk _ _ _ _ _ _ _ _ _ n _ _ _ _ => n

/-- Field accessor: `Gen`. -/
def gen : PdfValue → Int
  | .mk _ _ _ _ _ _ _ _ _ _ g _ _ _ => g

/-- Field accessor: `Value` (a nil-able pointer in Go). -/
def value : PdfValue → Option PdfValue
  | .mk _ _ _ _ _ _ _ _ _ _ _ v _ _ => v

/-- Field accessor: `Stream` (a nil-able pointer in Go). -/
def stream : PdfValue → Option PdfValue
  | .mk _ _ _ _ _ _ _ _ _ _ _ _ s _ => s

/-- Field accessor: `Bytes`. -/
def bytes : PdfValue → List Nat
  | .mk _ _ _ _ _ _ _ _ _ _ _ _ _ b => b

end PdfValue

/-- The zero `PdfValue` (Go's `&PdfValue{}`; note the zero `Type` is
`PDFTypeNull = 0`). -/
def zeroValue : PdfValue := .mk 0 "" "" 0 0 false [] [] 0 0 0 none none []

/-- A numeric value as built by `readValue`: the `Real` slot is also
filled (`Real = float64(n)`), per the comment in `const.go`. -/
def mkNumeric (n : Int) (tok : String) : PdfValue :=
  .mk PDFTypeNumeric "" tok n (n : ℚ) false [] [] 0 0 0 none none []

/-- A real value as built by `readValue`. -/
def mkReal (r : ℚ) (tok : String) : PdfValue :=
  .mk PDFTypeReal "" tok 0 r false [] [] 0 0 0 none none []

/-- A bare token value. -/
def mkToken (tok : String) : PdfValue :=
  .mk PDFTypeToken "" tok 0 0 false [] [] 0 0 0 none none []

/-- A boolean value. -/
def mkBool (b : Bool) (tok : String) : PdfValue :=
  .mk PDFTypeBoolean "" tok 0 0 b [] [] 0 0 0 none none []

/-- The null value (keeps the originating token, like the Go code). -/
def mkNull (tok : String) : PdfValue :=
  .mk PDFTypeNull "" tok 0 0 false [] [] 0 0 0 none none []

/-- A hex string value. -/
def mkHex (s tok : String) : PdfValue :=
  .mk PDFTypeHex s tok 0 0 false [] [] 0 0 0 none none []

/-- A literal string value. -/
def mkString (s tok : String) : PdfValue :=
  .mk PDFTypeString s tok 0 0 false [] [] 0 0 0 none none []

/-- A dictionary value (with the `Type` tag `t`: the parser produces
`PDFTypeDictionary`, or `PDFTypeNull` on the missing-value path). -/
def mkDict (t : Int) (d : List (String × PdfValue)) (tok : String) : PdfValue :=
  .mk t "" tok 0 0 false d [] 0 0 0 none none []

/-- An array value. -/
def mkArray (a : List PdfValue) (tok : String) : PdfValue :=
  .mk PDFTypeArray "" tok 0 0 false [] a 0 0 0 none none []

/-- An object-definition header `id gen obj`. -/
def mkObjDec (idv genv : Int) (tok : String) : PdfValue :=
  .mk PDFTypeObjDec "" tok 0 0 false [] [] idv 0 genv none none []

/-- An indirect reference `id gen R`. -/
def mkObjRef (idv genv : Int) (tok : String) : PdfValue :=
  .mk PDFTypeObjRef "" tok 0 0 false [] [] idv 0 genv none none []

/-- An indirect reference with a `NewID`, as built by the writer when it
queues a reference on the object stacks. -/
def mkObjRefNew (idv genv nid : Int) : PdfValue :=
  .mk PDFTypeObjRef "" "" 0 0 false [] [] idv nid genv none none []

/-- A resolved object (`Type = PDFTypeObject`) wrapping `v`. -/
def mkObject (idv genv : Int) (v : PdfValue) : PdfValue :=
  .mk PDFTypeObject "" "" 0 0 false [] [] idv 0 genv (some v) none []

/-- A resolved stream object: the wrapped value plus the raw payload
(`result.Stream` is a `PdfValue` of type `PDFTypeStream` holding the
bytes, exactly like `ResolveObject` builds it). -/
def mkStreamObject (idv genv : Int) (v : PdfValue) (payload : List Nat) : PdfValue :=
  .mk PDFTypeStream "" "" 0 0 false [] [] idv 0 genv (some v)
    (some (.mk PDFTypeStream "" "" 0 0 false [] [] 0 0 0 none none payload)) []

/-- Association-list lookup, modelling Go map read (`m[k]`): first hit
wins, which together with cons-on-write gives Go's overwrite
semantics. -/
def alookup {α : Type} (l : List (String × α)) (k : String) : Option α :=
  match l with
  | [] => none
  | (k2, v) :: rest => if k2 = k then some v else alookup rest k

/-- Association-list lookup with `Int` keys (for the xref maps and the
writer's object stacks). -/
def ilookup {α : Type} (l : List (Int × α)) (k : Int) : Option α :=
  match l with
  | [] => none
  | (k2, v) :: rest => if k2 = k then some v else ilookup rest k

/-- Map update preserving insertion order (Go `m[k] = v` for the maps
the model iterates): replace the first binding in place, else append. -/
def ainsert {α : Type} (l : List (String × α)) (k : String) (v : α) :
    List (String × α) :=
  match l with
  | [] => [(k, v)]
  | (k2, v2) :: rest => if k2 = k then (k, v) :: rest else (k2, v2) :: ainsert rest k v

/-- Dictionary update as performed by the parser (`result.Dictionary[key]
= value`). -/
def dinsert (l : List (String × PdfValue)) (k : String) (v : PdfValue) :
    List (String × PdfValue) :=
  ainsert l k v

/-- Go `strconv.Atoi`: optional sign, then decimal digits only
(overflow ignored). -/
def atoi (s : String) : Option Int :=
  match s.toList with
  | [] => none
  | c :: rest =>
    let digits : List Char → Option Nat := fun l =>
      if l = [] then none
      else l.foldl (fun acc d =>
        match acc with
        | none => none
        | some n => if d.isDigit then some (n * 10 + (d.toNat - 48)) else none)
        (some 0)
    if c = '-' then (digits rest).map (fun n => -(n : Int))
    else if c = '+' then (digits rest).map (fun n => (n : Int))
    else (digits (c :: rest)).map (fun n => (n : Int))

/-- Mantissa scanner for `parseRat`: digits with at most one point;
returns the accumulated value and the number of fractional digits. -/
def scanMantissa : List Char → Bool → Bool → ℚ → Nat → Option (ℚ × Nat)
  | [], _, seenDigit, acc, frac => if seenDigit then some (acc, frac) else none
  | c :: rest, seenDot, seenDigit, acc, frac =>
    if c.isDigit then
      scanMantissa rest seenDot true (acc * 10 + ((c.toNat - 48 : Nat) : ℚ))
        (if seenDot then frac + 1 else frac)
    else if c = '.' then
      if seenDot then none else scanMantissa rest true seenDigit acc frac
    else none

/-- Decimal-string parser standing in for Go `strconv.ParseFloat`:
optional sign, digits with at most one point, optional decimal exponent.
Hex floats and inf/nan are not modelled (they yield `none`, and the one
call site uses 0 then, like Go's zero result on error). -/
def parseRat (s : String) : Option ℚ :=
  match s.toList with
  | [] => none
  | l0 =>
    let (sign, l) :=
      match l0 with
      | '-' :: rest => ((-1 : ℚ), rest)
      | '+' :: rest => ((1 : ℚ), rest)
      | _ => ((1 : ℚ), l0)
    let idx := l.findIdx (fun c => c = 'e' ∨ c = 'E')
    let (mant, expPart) :=
      if idx < l.length then (l.take idx, some (l.drop (idx + 1))) else (l, none)
    let expVal : Option Int :=
      match expPart with
      | none => some 0
      | some e => atoi (String.mk e)
    match scanMantissa mant false false 0 0, expVal with
    | some (m, frac), some e => some (sign * m * (10 : ℚ) ^ (e - (frac : Int)))
    | _, _ => none

/-- Main scanning loop of `isNumeric` (digits, at most one point not in
first-flag position, at most one exponent letter not first or last),
ported index-for-index: `p`/`s` record the index of a previous point or
exponent, with the Go quirk that index 0 does not register (`p > 0`). -/
def isNumericLoop (cs : List Char) (i : Nat) (p s : Nat) (l : Nat) : Bool :=
  match cs with
  | [] => true
  | v :: rest =>
    if v = '.' then
      if p > 0 ∨ s > 0 ∨ i + 1 = l then false
      else isNumericLoop rest (i + 1) i s l
    else if v = 'e' ∨ v = 'E' then
      if i = 0 ∨ s > 0 ∨ i + 1 = l then false
      else isNumericLoop rest (i + 1) p i l
    else if v < '0' ∨ v > '9' then false
    else isNumericLoop rest (i + 1) p s l

/-- One-character whitespace test standing in for Go
`strings.TrimSpace`'s cutset (ASCII whitespace; the exotic unicode
spaces are irrelevant to tokens). -/
def isSpaceGo (c : Char) : Bool :=
  c = ' ' ∨ c = '\t' ∨ c = '\n' ∨ c = '\r' ∨ c = '\x0b' ∨ c = '\x0c'

/-- Trim whitespace from both ends of a character list. -/
def trimSpace (l : List Char) : List Char :=
  ((l.dropWhile isSpaceGo).reverse.dropWhile isSpaceGo).reverse

/-- `isNumeric` from the unnamed helper source file (the php2go port):
trims space, strips one sign, accepts `0x` hex, else runs the
digit/point/exponent scan. -/
def isNumeric (str : String) : Bool :=
  if str = "" then false
  else
    match trimSpace str.toList with
    | [] => false
    | c :: rest =>
      let cs := if c = '-' ∨ c = '+' then rest else c :: rest
      if (c = '-' ∨ c = '+') ∧ rest = [] then false
      else
        match cs with
        | '0' :: x :: hex =>
          if (x = 'x' ∨ x = 'X') ∧ hex ≠ [] then
            hex.all (fun h =>
              ('0' ≤ h ∧ h ≤ '9') ∨ ('a' ≤ h ∧ h ≤ 'f') ∨ ('A' ≤ h ∧ h ≤ 'F'))
          else isNumericLoop cs 0 0 0 cs.length
        | _ => isNumericLoop cs 0 0 0 cs.length

/-- `abs` from the unnamed helper source file (branch-free two's
complement absolute value; modelled directly as `Int.natAbs`). -/
def goAbs (x : Int) : Int := (x.natAbs : Int)

/-- One channel pass of `filterPaeth`: the inner `for j := i; j <
len(cdat); j += bytesPerPixel` loop.  `a` is the decoded left byte of
the channel, `c` the upper-left raw byte; each step writes the decoded
byte back into the row in place.  The fuel is the row length, which
bounds the number of in-range steps whenever `bpp > 0`. -/
def paethChannel (fuel : Nat) (cdat : List Nat) (pdat : List Nat) (bpp j : Nat)
    (a c : Int) : List Nat :=
  match fuel with
  | 0 => cdat
  | fuel + 1 =>
    if h : j < cdat.length then
      let b : Int := (pdat.getD j 0 : Int)
      let pa := b - c
      let pb := a - c
      let pc := goAbs (pa + pb)
      let pa := goAbs pa
      let pb := goAbs pb
      let pred := if pa ≤ pb ∧ pa ≤ pc then a else if pb ≤ pc then b else c
      let a2 := (pred + (cdat.get ⟨j, h⟩ : Int)).emod 256
      paethChannel fuel (cdat.set j a2.toNat) pdat bpp (j + bpp) a2 b
    else cdat

/-- `filterPaeth(cdat, pdat, bytesPerPixel)` from the unnamed helper
source file: for each channel `i < bytesPerPixel`, run the in-place
Paeth reconstruction over the bytes `i, i+bpp, i+2*bpp, ...`. -/
def filterPaeth (cdat pdat : List Nat) (bpp : Nat) : List Nat :=
  (List.range bpp).foldl
    (fun cd i => paethChannel (cd.length + 1) cd pdat bpp i 0 0) cdat

/-- A seekable byte stream: the underlying bytes plus the cursor. -/
structure Strm where
  data : List Char
  pos : Nat
  deriving Repr, DecidableEq

/-- Read one byte, advancing the cursor (`bufio.Reader.ReadByte` with
the one-byte-buffer convention from the module comment). -/
def Strm.readByte (s : Strm) : Option (Char × Strm) :=
  match s.data[s.pos]? with
  | some c => some (c, ⟨s.data, s.pos + 1⟩)
  | none => none

/-- Step the cursor back one byte (`UnreadByte`). -/
def Strm.unread (s : Strm) : Strm := ⟨s.data, s.pos - 1⟩

/-- `skipComments`: consume bytes until a newline; a CR peeks for a
following LF.  End of stream inside a comment is an error, as in the
source.  Internal fuel (`data.length + 1`) always suffices because
every iteration consumes a byte. -/
def skipCommentsAux (fuel : Nat) (s : Strm) : Except String Strm :=
  match fuel with
  | 0 => .error "out of fuel"
  | fuel + 1 =>
    match s.readByte with
    | none => .error "Failed to ReadByte while skipping comments"
    | some (b, s1) =>
      if b = '\n' ∨ b = '\r' then
        if b = '\r' then
          match s1.readByte with
          | none => .error "Failed to read byte"
          | some (b2, s2) => if b2 ≠ '\n' then .ok s2.unread else .ok s2
        else .ok s1
      else skipCommentsAux fuel s1

/-- `skipComments` with its always-sufficient internal fuel. -/
def skipComments (s : Strm) : Except String Strm :=
  skipCommentsAux (s.data.length + 1) s

/-- `skipWhitespace`: consume space, LF, CR, tab; EOF simply stops. -/
def skipWhitespaceAux (fuel : Nat) (s : Strm) : Strm :=
  match fuel with
  | 0 => s
  | fuel + 1 =>
    match s.readByte with
    | none => s
    | some (b, s1) =>
      if b = ' ' ∨ b = '\n' ∨ b = '\r' ∨ b = '\t' then skipWhitespaceAux fuel s1
      else s1.unread

/-- `skipWhitespace` with its always-sufficient internal fuel. -/
def skipWhitespace (s : Strm) : Strm :=
  skipWhitespaceAux (s.data.length + 1) s

/-- Is this byte one of the delimiters that terminate a plain token? -/
def isTokenDelim (b : Char) : Bool :=
  b = ' ' ∨ b = '%' ∨ b = '[' ∨ b = ']' ∨ b = '<' ∨ b = '>' ∨ b = '(' ∨
  b = ')' ∨ b = '\r' ∨ b = '\n' ∨ b = '\t' ∨ b = '/'

/-- The accumulation loop of `readToken`'s default branch: consume bytes
into the token until a delimiter (which is unread) — reaching end of
stream mid-token is an error, exactly as in the source. -/
def readPlainToken (fuel : Nat) (acc : List Char) (s : Strm) :
    Except String (String × Strm) :=
  match fuel with
  | 0 => .error "out of fuel"
  | fuel + 1 =>
    match s.readByte with
    | none => .error "Failed to read byte"
    | some (b, s1) =>
      if isTokenDelim b then .ok (String.mk acc, s1.unread)
      else readPlainToken fuel (acc ++ [b]) s1

/-- `readToken`: pop the pushback stack if nonempty, else skip
whitespace and dispatch on the first byte.  The fuel only feeds the
comment-skipping recursion; `data.length + 2` always suffices. -/
def readTokenAux (fuel : Nat) (stack : List String) (s : Strm) :
    Except String (String × List String × Strm) :=
  match fuel with
  | 0 => .error "out of fuel"
  | fuel + 1 =>
    match stack with
    | popped :: rest => .ok (popped, rest, s)
    | [] =>
      let s := skipWhitespace s
      match s.readByte with
      | none => .ok ("", [], s)
      | some (b, s1) =>
        if b = '[' ∨ b = ']' ∨ b = '(' ∨ b = ')' then
          .ok (String.mk [b], [], s1)
        else if b = '<' ∨ b = '>' then
          match s1.readByte with
          | none => .error "Failed to read byte"
          | some (nb, s2) =>
            if nb = b then .ok (String.mk [b, nb], [], s2)
            else .ok (String.mk [b], [], s2.unread)
        else if b = '%' then
          match skipComments s1 with
          | .error e => .error e
          | .ok s2 => readTokenAux fuel [] s2
        else
          match readPlainToken (s1.data.length + 1) [b] s1 with
          | .error e => .error e
          | .ok (t, s2) => .ok (t, [], s2)

/-- `readToken` over a stream and the reader's shared pushback stack. -/
def readToken (stack : List String) (s : Strm) :
    Except String (String × List String × Strm) :=
  readTokenAux (s.data.length + 2) stack s

/-- A value abandoned half-way (`result.Type` still `-1`): returned by
`readValue` on the empty-token paths of its dictionary and array loops,
with whatever dictionary entries were already recorded. -/
def mkIncomplete (d : List (String × PdfValue)) (tok : String) : PdfValue :=
  .mk (-1) "" tok 0 0 false d [] 0 0 0 none none []

/-- The literal-string loop of `readValue` (`(` case): balanced-paren
tracking with `\`-escaped pairs preserved byte-for-byte. -/
def readLiteralString (fuel : Nat) (ob : Nat) (acc : List Char) (s : Strm) :
    Except String (List Char × Strm) :=
  match fuel with
  | 0 => .error "out of fuel"
  | fuel + 1 =>
    if ob = 0 then .ok (acc, s)
    else
      match s.readByte with
      | none => .error "Failed to read byte"
      | some (b, s1) =>
        if b = '(' then readLiteralString fuel (ob + 1) (acc ++ [b]) s1
        else if b = ')' then
          readLiteralString fuel (ob - 1) (if ob - 1 > 0 then acc ++ [b] else acc) s1
        else if b = '\\' then
          match s1.readByte with
          | none => .error "Failed to read byte"
          | some (nb, s2) => readLiteralString fuel ob (acc ++ [b, nb]) s2
        else readLiteralString fuel ob (acc ++ [b]) s1

/-- The hex-string loop of `readValue` (`<` case): bytes until `>`. -/
def readHexString (fuel : Nat) (acc : List Char) (s : Strm) :
    Except String (List Char × Strm) :=
  match fuel with
  | 0 => .error "out of fuel"
  | fuel + 1 =>
    match s.readByte with
    | none => .error "Failed to read byte"
    | some (b, s1) =>
      if b ≠ '>' then readHexString fuel (acc ++ [b]) s1
      else .ok (acc, s1)

/-- The numeric fallthrough of `readValue`: integer when `strconv.Atoi`
succeeds (also filling the `Real` slot), else a real via `ParseFloat`
with errors ignored. -/
def numericResult (t : String) : PdfValue :=
  match atoi t with
  | some n => mkNumeric n t
  | none => mkReal ((parseRat t).getD 0) t

/-- Parsing modes of the `readValue` recursion: a value led by a token,
the dictionary loop, or the array loop.  The three mutually recursive
Go functions are compiled as one fuel-structural function so that the
model evaluates by kernel reduction. -/
inductive RVMode where
  | value (t : String)
  | dict (acc : List (String × PdfValue)) (tok : String)
  | arr (acc : List PdfValue) (tok : String)

/-- The combined `readValue`/dictionary-loop/array-loop recursion (see
`readValue`, `readDictLoop`, `readArrayLoop` below for the per-function
views matching the source). -/
def readValueGo (fuel : Nat) (stack : List String) (s : Strm) (m : RVMode) :
    Except String (PdfValue × List String × Strm) :=
  match fuel with
  | 0 => .error "out of fuel"
  | fuel + 1 =>
    match m with
    | .value t =>
      if t = "<" then
        match readHexString (s.data.length + 1) [] s with
        | .error e => .error e
        | .ok (cs, s1) => .ok (mkHex (String.mk cs) t, stack, s1)
      else if t = "<<" then
        readValueGo fuel stack s (.dict [] t)
      else if t = "[" then
        readValueGo fuel stack s (.arr [] t)
      else if t = "(" then
        match readLiteralString (s.data.length + 1) 1 [] s with
        | .error e => .error e
        | .ok (cs, s1) => .ok (mkString (String.mk cs) t, stack, s1)
      else if t = "stream" then
        .error "Stream not implemented"
      else if isNumeric t then
        match readToken stack s with
        | .error e => .error e
        | .ok (t2, stack, s) =>
          if t2 ≠ "" then
            if isNumeric t2 then
              match readToken stack s with
              | .error e => .error e
              | .ok (t3, stack, s) =>
                if t3 ≠ "" then
                  if t3 = "obj" then
                    .ok (mkObjDec ((atoi t).getD 0) ((atoi t2).getD 0) t, stack, s)
                  else if t3 = "R" then
                    .ok (mkObjRef ((atoi t).getD 0) ((atoi t2).getD 0) t, stack, s)
                  else
                    .ok (numericResult t, t2 :: t3 :: stack, s)
                else
                  .ok (numericResult t, t2 :: stack, s)
            else
              .ok (numericResult t, t2 :: stack, s)
          else
            .ok (numericResult t, stack, s)
      else if t = "true" ∨ t = "false" then
        .ok (mkBool (t = "true") t, stack, s)
      else if t = "null" then
        .ok (mkNull t, stack, s)
      else
        .ok (mkToken t, stack, s)
    | .dict acc tok =>
      match readToken stack s with
      | .error e => .error e
      | .ok (key, stack, s) =>
        if key = "" then .error "Token is empty"
        else if key = ">>" then .ok (mkDict PDFTypeDictionary acc tok, stack, s)
        else
          match readToken stack s with
          | .error e => .error e
          | .ok (newKey, stack, s) =>
            match readValueGo fuel stack s (.value newKey) with
            | .error e => .error (e ++ ":Failed to read value for token: " ++ newKey)
            | .ok (value, stack, s) =>
              if value.type = -1 then .ok (mkIncomplete acc tok, stack, s)
              else if value.type = PDFTypeToken ∧ value.str = ">>" then
                .ok (mkDict PDFTypeDictionary (dinsert acc key value) tok, stack, s)
              else readValueGo fuel stack s (.dict (dinsert acc key value) tok)
    | .arr acc tok =>
      match readToken stack s with
      | .error e => .error e
      | .ok (key, stack, s) =>
        if key = "" then .error "Token is empty"
        else if key = "]" then .ok (mkArray acc tok, stack, s)
        else
          match readValueGo fuel stack s (.value key) with
          | .error e => .error (e ++ ":Failed to read value for token: " ++ key)
          | .ok (value, stack, s) =>
            if value.type = -1 then .ok (mkIncomplete [] tok, stack, s)
            else readValueGo fuel stack s (.arr (acc ++ [value]) tok)

/-- `readValue(r, t)` from `const.go`: build a `PdfValue` from the
leading token `t`, reading further tokens and bytes as needed.  The
pushback stack is threaded through explicitly (it is the reader's
`stack` field, shared across streams). -/
def readValue (fuel : Nat) (stack : List String) (s : Strm) (t : String) :
    Except String (PdfValue × List String × Strm) :=
  readValueGo fuel stack s (.value t)

/-- The dictionary loop of `readValue` (`<<` case). -/
def readDictLoop (fuel : Nat) (stack : List String) (s : Strm)
    (acc : List (String × PdfValue)) (tok : String) :
    Except String (PdfValue × List String × Strm) :=
  readValueGo fuel stack s (.dict acc tok)

/-- The array loop of `readValue` (`[` case). -/
def readArrayLoop (fuel : Nat) (stack : List String) (s : Strm)
    (acc : List PdfValue) (tok : String) :
    Except String (PdfValue × List String × Strm) :=
  readValueGo fuel stack s (.arr acc tok)

/-- Set the cursor (`Seek(n, io.SeekStart)`). -/
def Strm.seekTo (s : Strm) (n : Nat) : Strm := ⟨s.data, n⟩

/-- `io.ReadFull`: read exactly `n` bytes or fail. -/
def Strm.readFull (s : Strm) (n : Nat) : Option (List Char × Strm) :=
  if s.pos + n ≤ s.data.length then
    some ((s.data.drop s.pos).take n, ⟨s.data, s.pos + n⟩)
  else none

/-- External library functions the repository calls but does not
implement: zlib, SHA-1, float formatting, trigonometry.  They are
opaque pure functions; no claim depends on their behaviour beyond
explicitly stated hypotheses. -/
structure Ext where
  inflate : List Nat → List Nat
  deflate : String → String
  sha1hex : String → String
  fmtF : ℚ → String
  fmt2 : ℚ → String
  fmt5 : ℚ → String
  qcos : ℚ → ℚ
  qsin : ℚ → ℚ

/-- The mutable fields of `PdfReader` that the modelled operations
touch: token pushback stack, trailer, flattened page list, xref
position, both xref maps, the source stream with its seek cursor, the
source file name and the page count. -/
structure RState where
  stack : List String
  trailer : Option PdfValue
  pages : List PdfValue
  xrefPos : Int
  xref : List (Int × List (Int × Int))
  xrefStream : List (Int × (Int × Int))
  f : Strm
  sourceFile : String
  pageCount : Int

/-- Dereference a nil-able `PdfValue` pointer; Go would panic, the model
errors. -/
def deref (v : Option PdfValue) : Except String PdfValue :=
  match v with
  | some x => .ok x
  | none => .error "nil pointer dereference"

/-- `readToken` on the reader's source stream, threading the shared
pushback stack through the state. -/
def readTokenF (st : RState) : Except String (String × RState) :=
  match readToken st.stack st.f with
  | .error e => .error e
  | .ok (t, stack, f) => .ok (t, { st with stack := stack, f := f })

/-- `readValue` on the reader's source stream. -/
def readValueF (fuel : Nat) (st : RState) (t : String) :
    Except String (PdfValue × RState) :=
  match readValue fuel st.stack st.f t with
  | .error e => .error e
  | .ok (v, stack, f) => .ok (v, { st with stack := stack, f := f })

/-- The `(sub-id, relative-offset)` pair scan of
`resolveCompressedObject`: read `n` pairs of integer tokens, remembering
the pair at position `objectIndex`. -/
def readObjStmPairs (n : Nat) (i : Nat) (objectIndex : Int) (stack : List String)
    (s : Strm) (subID subPos : Int) : Except String (Int × Int × List String × Strm) :=
  match n with
  | 0 => .ok (subID, subPos, stack, s)
  | n + 1 =>
    match readToken stack s with
    | .error e => .error e
    | .ok (t, stack, s) =>
      match atoi t with
      | none => .error ("Failed to convert token into integer: " ++ t)
      | some objidx =>
        match readToken stack s with
        | .error e => .error e
        | .ok (t2, stack, s) =>
          match atoi t2 with
          | none => .error ("Failed to convert token into integer: " ++ t2)
          | some objpos =>
            if (i : Int) = objectIndex then
              readObjStmPairs n (i + 1) objectIndex stack s objidx objpos
            else
              readObjStmPairs n (i + 1) objectIndex stack s subID subPos

/-- The two entry points of the object-resolution recursion (compiled
as one fuel-structural function): direct resolution and compressed
(object-stream) resolution. -/
inductive RMode where
  | obj (objSpec : PdfValue)
  | comp (objSpec : PdfValue)

/-- The combined `ResolveObject`/`resolveCompressedObject` recursion
(see the two wrappers below for the per-function views that match the
source). -/
def resolveGo (fuel : Nat) (ext : Ext) (st : RState) (m : RMode) :
    Except String (PdfValue × RState) :=
  match fuel with
  | 0 => .error "out of fuel"
  | fuel + 1 =>
    match m with
    | .obj objSpec =>
      if objSpec.type ≠ PDFTypeObjRef then .ok (objSpec, st)
      else
        let offset :=
          (((ilookup st.xref objSpec.id).map
            (fun m2 => (ilookup m2 objSpec.gen).getD 0)).getD 0)
        match ilookup st.xref objSpec.id with
        | none => resolveGo fuel ext st (.comp objSpec)
        | some _ =>
          let oldPos := st.f.pos
          let st := { st with f := st.f.seekTo offset.toNat }
          match readTokenF st with
          | .error e => .error e
          | .ok (token, st) =>
            match readValueF (st.f.data.length + 2) st token with
            | .error e => .error e
            | .ok (obj, st) =>
              if obj.type ≠ PDFTypeObjDec then
                .error "expected type to be PDF_TYPE_OBJDEC"
              else if obj.id ≠ objSpec.id then
                .error "object ID does not match ObjSpec ID"
              else if obj.gen ≠ objSpec.gen then
                .error "Object Gen does not match ObjSpec Gen"
              else
                match readTokenF st with
                | .error e => .error e
                | .ok (token, st) =>
                  match readValueF (st.f.data.length + 2) st token with
                  | .error e => .error e
                  | .ok (value, st) =>
                    match readTokenF st with
                    | .error e => .error e
                    | .ok (token, st) =>
                      if token = "stream" then
                        let st := { st with f := skipWhitespace st.f }
                        match alookup value.dictionary "/Length" with
                        | none => .error "nil pointer dereference"
                        | some lengthDict =>
                          match
                            (if lengthDict.type = PDFTypeObjRef then
                              match resolveGo fuel ext st (.obj lengthDict) with
                              | .error e =>
                                .error (e ++ ":Failed to resolve length object of stream")
                              | .ok (ld, st) =>
                                match ld.value with
                                | none => .error "nil pointer dereference"
                                | some lv => .ok (lv.int, st)
                            else .ok (lengthDict.int, st) :
                              Except String (Int × RState)) with
                          | .error e => .error e
                          | .ok (length, st) =>
                            match st.f.readFull length.toNat with
                            | none => .error "Failed to read bytes from buffer"
                            | some (payload, f) =>
                              let st := { st with f := f }
                              match readTokenF st with
                              | .error e => .error e
                              | .ok (tok2, st) =>
                                if tok2 ≠ "endstream" then
                                  .error ("Expected next token to be: endstream, got: " ++ tok2)
                                else
                                  match readTokenF st with
                                  | .error e => .error e
                                  | .ok (tok3, st) =>
                                    if tok3 ≠ "endobj" then
                                      .error ("Expected next token to be: endobj, got: " ++ tok3)
                                    else
                                      .ok (mkStreamObject obj.id obj.gen value
                                            (payload.map Char.toNat),
                                          { st with f := st.f.seekTo oldPos })
                      else
                        if token ≠ "endobj" then
                          .error ("Expected next token to be: endobj, got: " ++ token)
                        else
                          .ok (mkObject obj.id obj.gen value,
                              { st with f := st.f.seekTo oldPos })
    | .comp objSpec =>
      match ilookup st.xrefStream objSpec.id with
      | none => .error "could not find object ID in xref stream or xref table"
      | some (objectID, objectIndex) =>
        match resolveGo fuel ext st (.obj (mkObjRef objectID 0 "")) with
        | .error e => .error (e ++ ":Failed to resolve compressed object")
        | .ok (compressedObj, st) =>
          match deref compressedObj.value with
          | .error e => .error e
          | .ok cv =>
            match alookup cv.dictionary "/Type" with
            | none => .error "could not determine compressed object type"
            | some tv =>
              if tv.token ≠ "/ObjStm" then
                .error "Expected compressed object type to be /ObjStm"
              else
                match alookup cv.dictionary "/N" with
                | none => .error "nil pointer dereference"
                | some nv =>
                  if nv.int ≤ 0 then .error "No sub objects in compressed object"
                  else
                    match alookup cv.dictionary "/First" with
                    | none => .error "nil pointer dereference"
                    | some firstv =>
                      match
                        (match alookup cv.dictionary "/Filter" with
                        | none => .ok false
                        | some fv =>
                          if fv.token ≠ "/FlateDecode" then
                            .error ("Unsupported filter - expected /FlateDecode, got: "
                              ++ fv.token)
                          else .ok true : Except String Bool) with
                      | .error e => .error e
                      | .ok isFlate =>
                        match deref compressedObj.stream with
                        | .error e => .error e
                        | .ok sv =>
                          let data :=
                            if isFlate then ext.inflate sv.bytes else sv.bytes
                          let buf : Strm := ⟨data.map Char.ofNat, 0⟩
                          match readObjStmPairs nv.int.toNat 0 objectIndex st.stack
                              buf 0 0 with
                          | .error e => .error e
                          | .ok (subObjID, subObjPos, stack, _) =>
                            let st := { st with stack := stack }
                            let rs := Strm.seekTo ⟨data.map Char.ofNat, 0⟩
                              (subObjPos + firstv.int).toNat
                            match readToken st.stack rs with
                            | .error e => .error e
                            | .ok (token, stack, rs) =>
                              let st := { st with stack := stack }
                              match readValue (rs.data.length + 2) st.stack rs token with
                              | .error e =>
                                .error (e ++ ":Failed to read value for token: " ++ token)
                              | .ok (obj, stack, _) =>
                                .ok (mkObject subObjID 0 obj, { st with stack := stack })

/-- `ResolveObject` from `const.go`: return non-references unchanged;
otherwise look the id up in `xref` (falling back to the compressed-object
path), save the seek position, seek to the object, parse the header, the
value and an optional stream payload (resolving `/Length` reentrantly if
it is a reference), check `endstream`/`endobj`, and restore the saved
position before returning. -/
def ResolveObject (fuel : Nat) (ext : Ext) (st : RState) (objSpec : PdfValue) :
    Except String (PdfValue × RState) :=
  resolveGo fuel ext st (.obj objSpec)

/-- `resolveCompressedObject` from `const.go` (PDF 1.5 object streams):
resolve the container via `ResolveObject`, check `/Type /ObjStm`, read
`/N` and `/First`, optionally inflate, scan the pair table, seek inside
the decompressed buffer and parse the sub-object. -/
def resolveCompressedObject (fuel : Nat) (ext : Ext) (st : RState)
    (objSpec : PdfValue) : Except String (PdfValue × RState) :=
  resolveGo fuel ext st (.comp objSpec)

/-- The big-endian middle field of a decoded xref-stream row: a
four-byte buffer is zero-padded on the left and filled from
`objectData[1 : 1+middleFieldSize]`, then read as an unsigned 32-bit
big-endian integer. -/
def beField (w1 : Int) (objectData : List Nat) : Int :=
  let b := List.replicate (4 - w1.toNat) 0 ++ (objectData.drop 1).take w1.toNat
  b.foldl (fun acc x => acc * 256 + (x : Int)) 0

/-- The xref-stream row loop of `readXref`, decoding side: split the
inflated bytes `rest` into rows of `fieldSize` bytes (a clean EOF stops,
a partial row is an `io.ReadFull` error), apply `filterPaeth` against
the previous decoded row when a predictor is present, and strip the tag
byte (`result[1:fieldSize]` copied into a `fieldSize`-byte zero buffer,
hence the trailing zero pad byte). -/
def xrefStreamRowsAux (fuel : Nat) (rest : List Nat) (prevRow : List Nat)
    (fieldSize : Nat) (paethDecode : Bool) : Except String (List (List Nat)) :=
  match fuel with
  | 0 => .error "out of fuel"
  | fuel + 1 =>
    if rest = [] then .ok []
    else if rest.length < fieldSize then .error "io.ReadFull error"
    else
      let row := rest.take fieldSize
      let row2 := if paethDecode then filterPaeth row prevRow fieldSize else row
      let prevRow2 := if paethDecode then row2 else prevRow
      let objectData := if paethDecode then row2.drop 1 ++ [0] else row2
      match xrefStreamRowsAux fuel (rest.drop fieldSize) prevRow2 fieldSize
          paethDecode with
      | .error e => .error e
      | .ok rows => .ok (objectData :: rows)

/-- The xref-stream decoding path (rows of the inflated payload after
predictor reversal and tag stripping), with its always-sufficient
internal fuel. -/
def xrefStreamRows (p : List Nat) (fieldSize : Nat) (paethDecode : Bool) :
    Except String (List (List Nat)) :=
  xrefStreamRowsAux (p.length + 1) p (List.replicate fieldSize 0) fieldSize
    paethDecode

/-- The xref-stream row loop of `readXref`, recording side: walk the
decoded rows with the running object id `i`; flag 1 rows set
`xref[i] = (gen, offset)` (a fresh singleton map, as in the source),
flag 2 rows set `xrefStream[i] = (containerId, index)`; other flags are
skipped.  `w0`/`w1` are the first and middle `/W` field widths. -/
def recordXrefRows (rows : List (List Nat)) (i : Int) (w0 w1 : Int)
    (st : RState) : RState :=
  match rows with
  | [] => st
  | objectData :: rest =>
    let st :=
      if objectData.getD 0 0 = 1 then
        { st with xref := (i, [(((objectData.getD (w0 + w1).toNat 0 : Nat) : Int),
            beField w1 objectData)]) :: st.xref }
      else if objectData.getD 0 0 = 2 then
        { st with xrefStream := (i, (beField w1 objectData,
            ((objectData.getD (w0 + w1).toNat 0 : Nat) : Int))) :: st.xrefStream }
      else st
    recordXrefRows rest (i + 1) w0 w1 st

/-- One classic xref subsection: `n` rows of `(offset, gen, status)`
tokens; every row (including `f` rows, as in the source) replaces
`xref[i]` with a fresh singleton `gen → offset` map. -/
def readClassicRows (n : Nat) (i : Int) (st : RState) : Except String RState :=
  match n with
  | 0 => .ok st
  | n + 1 =>
    match readTokenF st with
    | .error e => .error e
    | .ok (t, st) =>
      match atoi t with
      | none => .error ("Failed to convert object position to integer: " ++ t)
      | some objPos =>
        match readTokenF st with
        | .error e => .error e
        | .ok (t2, st) =>
          match atoi t2 with
          | none => .error ("Failed to convert object generation to integer: " ++ t2)
          | some objGen =>
            match readTokenF st with
            | .error e => .error e
            | .ok (objStatus, st) =>
              if objStatus ≠ "f" ∧ objStatus ≠ "n" then
                .error ("Expected objStatus to be 'n' or 'f', got: " ++ objStatus)
              else
                readClassicRows n (i + 1)
                  { st with xref := (i, [(objGen, objPos)]) :: st.xref }

/-- The classic-table subsection loop of `readXref`: read subsections
until the `trailer` token. -/
def readXrefSections (fuel : Nat) (st : RState) : Except String RState :=
  match fuel with
  | 0 => .error "out of fuel"
  | fuel + 1 =>
    match readTokenF st with
    | .error e => .error e
    | .ok (t, st) =>
      if t = "trailer" then .ok st
      else
        match atoi t with
        | none => .error ("Failed to convert start object to integer: " ++ t)
        | some startObject =>
          match readTokenF st with
          | .error e => .error e
          | .ok (t2, st) =>
            match atoi t2 with
            | none => .error ("Failed to convert num object to integer: " ++ t2)
            | some numObject =>
              match readClassicRows numObject.toNat startObject st with
              | .error e => .error e
              | .ok st => readXrefSections fuel st

/-- `readXref` from `const.go`: seek to `xrefPos` and either parse a
classic `xref` table (subsections, then the trailer dictionary,
recursing into `/Prev`), or parse a cross-reference stream object
(`/Type /XRef`): check `/DecodeParms` bounds, `/Index`, `/Prev` and
`/Root`, read and inflate the stream payload, decode its rows
(`xrefStreamRows`) and record them (`recordXrefRows`), then recurse
into `/Prev` if present.  An object at `xrefPos` whose dictionary is
not `/Type /XRef` returns success without recording anything, as in
the source. -/
def readXref (fuel : Nat) (ext : Ext) (st : RState) : Except String RState :=
  match fuel with
  | 0 => .error "out of fuel"
  | fuel + 1 =>
    let st := { st with f := st.f.seekTo st.xrefPos.toNat }
    match readTokenF st with
    | .error e => .error e
    | .ok (t, st) =>
      if t ≠ "xref" then
        match readValueF (st.f.data.length + 2) st t with
        | .error e => .error (e ++ ":Failed to read XRef stream")
        | .ok (v, st) =>
          if v.type = PDFTypeObjDec then
            match readTokenF st with
            | .error e => .error e
            | .ok (t2, st) =>
              match readValueF (st.f.data.length + 2) st t2 with
              | .error e => .error (e ++ ":Failed to read value for token: " ++ t2)
              | .ok (v2, st) =>
                match alookup v2.dictionary "/Type" with
                | none => .ok st
                | some tv =>
                  if tv.token ≠ "/XRef" then .ok st
                  else
                    match
                      (match alookup v2.dictionary "/DecodeParms" with
                      | none => .ok false
                      | some dp =>
                        let columns :=
                          ((alookup dp.dictionary "/Columns").map PdfValue.int).getD 0
                        let predictor :=
                          ((alookup dp.dictionary "/Predictor").map PdfValue.int).getD 0
                        if columns > 4 ∨ predictor > 12 then
                          .error "Unsupported /DecodeParms - only tested with /Columns <= 4 and /Predictor <= 12"
                        else .ok true : Except String Bool) with
                    | .error e => .error e
                    | .ok paethDecode =>
                      match
                        (match alookup v2.dictionary "/Index" with
                        | none => .ok 0
                        | some iv =>
                          if iv.array.length < 2 then
                            .error "Index array does not contain 2 elements"
                          else .ok ((iv.array.getD 0 zeroValue).int) :
                          Except String Int) with
                      | .error e => .error e
                      | .ok index0 =>
                        let prevXref :=
                          ((alookup v2.dictionary "/Prev").map PdfValue.int).getD 0
                        let st :=
                          if (alookup v2.dictionary "/Root").isSome then
                            { st with trailer := some v2 }
                          else st
                        let startObject := index0
                        let st := { st with f := skipWhitespace st.f }
                        match alookup v2.dictionary "/Length" with
                        | none => .error "nil pointer dereference"
                        | some lengthDict =>
                          match
                            (if lengthDict.type = PDFTypeObjRef then
                              match ResolveObject fuel ext st lengthDict with
                              | .error e =>
                                .error (e ++ ":Failed to resolve length object of stream")
                              | .ok (ld, st) =>
                                match ld.value with
                                | none => .error "nil pointer dereference"
                                | some lv => .ok (lv.int, st)
                            else .ok (lengthDict.int, st) :
                              Except String (Int × RState)) with
                          | .error e => .error e
                          | .ok (length, st) =>
                            match readTokenF st with
                            | .error e => .error e
                            | .ok (t3, st) =>
                              if t3 ≠ "stream" then
                                .error ("Expected next token to be: stream, got: " ++ t3)
                              else
                                let st := { st with f := skipWhitespace st.f }
                                match st.f.readFull length.toNat with
                                | none => .error "Failed to read bytes from buffer"
                                | some (data, f) =>
                                  let st := { st with f := f }
                                  match readTokenF st with
                                  | .error e => .error e
                                  | .ok (t4, st) =>
                                    if t4 ≠ "endstream" then
                                      .error ("Expected next token to be: endstream, got: " ++ t4)
                                    else
                                      match readTokenF st with
                                      | .error e => .error e
                                      | .ok (t5, st) =>
                                        if t5 ≠ "endobj" then
                                          .error ("Expected next token to be: endobj, got: " ++ t5)
                                        else
                                          let p := ext.inflate (data.map Char.toNat)
                                          match deref (alookup v2.dictionary "/W") with
                                          | .error e => .error e
                                          | .ok wv =>
                                            match wv.array with
                                            | w0v :: w1v :: w2v :: _ =>
                                              let w0 := w0v.int
                                              let w1 := w1v.int
                                              let w2 := w2v.int
                                              let fieldSize0 := w0 + w1 + w2
                                              let fieldSize :=
                                                if paethDecode then fieldSize0 + 1
                                                else fieldSize0
                                              match xrefStreamRows p fieldSize.toNat
                                                  paethDecode with
                                              | .error e => .error e
                                              | .ok rows =>
                                                let st := recordXrefRows rows
                                                  startObject w0 w1 st
                                                if prevXref > 0 then
                                                  match readXref fuel ext
                                                      { st with xrefPos := prevXref } with
                                                  | .error e =>
                                                    .error (e ++ ": Failed to read prev xref")
                                                  | .ok st => .ok st
                                                else .ok st
                                            | _ => .error "index out of range in /W"
          else .error ("Expected xref to start with 'xref'.  Got: " ++ t)
      else
        match readXrefSections (st.f.data.length + 2) st with
        | .error e => .error e
        | .ok st =>
          match readTokenF st with
          | .error e => .error e
          | .ok (t6, st) =>
            match readValueF (st.f.data.length + 2) st t6 with
            | .error e => .error (e ++ ":Failed to read value for token: " ++ t6)
            | .ok (trailer, st) =>
              let st :=
                if (alookup trailer.dictionary "/Root").isSome then
                  { st with trailer := some trailer }
                else st
              match alookup trailer.dictionary "/Prev" with
              | some tr => readXref fuel ext { st with xrefPos := tr.int }
              | none => .ok st

/-- The available box names, in the order of `pr.availableBoxes`. -/
def availableBoxes : List String :=
  ["/MediaBox", "/CropBox", "/BleedBox", "/TrimBox", "/ArtBox"]

/-- `getPageBox`: read one box array from the page dictionary (resolving
a reference if needed) and scale it into the `x/y/w/h/llx/lly/urx/ury`
map; a missing key retries on the resolved `/Parent`; still missing
yields the empty map. -/
def getPageBox (fuel : Nat) (ext : Ext) (st : RState) (page : PdfValue)
    (boxIndex : String) (k : ℚ) : Except String (List (String × ℚ) × RState) :=
  match fuel with
  | 0 => .error "out of fuel"
  | fuel + 1 =>
    match deref page.value with
    | .error e => .error e
    | .ok pv =>
      match alookup pv.dictionary boxIndex with
      | some box0 =>
        match
          (if box0.type = PDFTypeObjRef then
            match ResolveObject fuel ext st box0 with
            | .error _ => .error "Failed to resolve object"
            | .ok (tmpBox, st) =>
              match tmpBox.value with
              | none => .error "nil pointer dereference"
              | some bv => .ok (bv, st)
          else .ok (box0, st) : Except String (PdfValue × RState)) with
        | .error e => .error e
        | .ok (box, st) =>
          if box.type = PDFTypeArray then
            match box.array with
            | a0 :: a1 :: a2 :: a3 :: _ =>
              .ok ([("x", a0.real / k), ("y", a1.real / k),
                    ("w", |a0.real - a2.real| / k), ("h", |a1.real - a3.real| / k),
                    ("llx", min a0.real a2.real), ("lly", min a1.real a3.real),
                    ("urx", max a0.real a2.real), ("ury", max a1.real a3.real)], st)
            | _ => .error "index out of range"
          else .error "Could not get page box"
      | none =>
        match alookup pv.dictionary "/Parent" with
        | some par =>
          match ResolveObject fuel ext st par with
          | .error e => .error (e ++ ":Could not resolve parent object")
          | .ok (parentObj, st) => getPageBox fuel ext st parentObj boxIndex k
        | none => .ok ([], st)

/-- `GetPageBoxes`: the five availableBoxes of one page, in order. -/
def GetPageBoxes (fuel : Nat) (ext : Ext) (st : RState) (pageno : Int) (k : ℚ) :
    Except String (List (String × List (String × ℚ)) × RState) :=
  if (st.pages.length : Int) < pageno then .error "page does not exist"
  else if pageno < 1 then .error "index out of range"
  else
    match ResolveObject fuel ext st (st.pages.getD (pageno - 1).toNat zeroValue) with
    | .error _ => .error "failed to resolve page object"
    | .ok (page, st) =>
      let rec go (bs : List String) (st : RState)
          (acc : List (String × List (String × ℚ))) :
          Except String (List (String × List (String × ℚ)) × RState) :=
        match bs with
        | [] => .ok (acc, st)
        | b :: rest =>
          match getPageBox fuel ext st page b k with
          | .error _ => .error "failed to get page box"
          | .ok (box, st) => go rest st (acc ++ [(b, box)])
      go availableBoxes st []

/-- `GetAllPageBoxes`: `GetPageBoxes` for every page, keyed 1-based. -/
def GetAllPageBoxes (fuel : Nat) (ext : Ext) (st : RState) (k : ℚ) :
    Except String (List (Int × List (String × List (String × ℚ))) × RState) :=
  let rec go (i : Nat) (n : Nat) (st : RState)
      (acc : List (Int × List (String × List (String × ℚ)))) :
      Except String (List (Int × List (String × List (String × ℚ))) × RState) :=
    match n with
    | 0 => .ok (acc, st)
    | n + 1 =>
      match GetPageBoxes fuel ext st (i : Int) k with
      | .error e => .error (e ++ ":Unable to get page box")
      | .ok (pb, st) => go (i + 1) n st (acc ++ [((i : Int), pb)])
  go 1 st.pages.length st []

/-- `GetPageResources`: the resolved `/Resources` of a page, else the
resolved `/Parent`, else the zero value. -/
def GetPageResources (fuel : Nat) (ext : Ext) (st : RState) (pageno : Int) :
    Except String (PdfValue × RState) :=
  if (st.pages.length : Int) < pageno then .error "page does not exist"
  else if pageno < 1 then .error "index out of range"
  else
    match ResolveObject fuel ext st (st.pages.getD (pageno - 1).toNat zeroValue) with
    | .error e => .error (e ++ ":Failed to resolve page object")
    | .ok (page, st) =>
      match deref page.value with
      | .error e => .error e
      | .ok pv =>
        match alookup pv.dictionary "/Resources" with
        | some resRef =>
          match ResolveObject fuel ext st resRef with
          | .error e => .error (e ++ ":Failed to resolve resources object")
          | .ok (res, st) =>
            if res.type = PDFTypeObject then
              match deref res.value with
              | .error e => .error e
              | .ok rv => .ok (rv, st)
            else .ok (res, st)
        | none =>
          match alookup pv.dictionary "/Parent" with
          | some parRef =>
            match ResolveObject fuel ext st parRef with
            | .error e => .error (e ++ ":Failed to resolve parent object")
            | .ok (res, st) =>
              if res.type = PDFTypeObject then
                match deref res.value with
                | .error e => .error e
                | .ok rv => .ok (rv, st)
              else .ok (res, st)
          | none => .ok (zeroValue, st)

/-- `_getPageRotation`: resolve the page, return the resolved `/Rotate`
(unwrapping a `PDFTypeObject`), else recurse through `/Parent`, else an
`Int: 0` value. -/
def getPageRotationAux (fuel : Nat) (ext : Ext) (st : RState) (page : PdfValue) :
    Except String (PdfValue × RState) :=
  match fuel with
  | 0 => .error "out of fuel"
  | fuel + 1 =>
    match ResolveObject fuel ext st page with
    | .error _ => .error "Failed to resolve page object"
    | .ok (page, st) =>
      match deref page.value with
      | .error e => .error e
      | .ok pv =>
        match alookup pv.dictionary "/Rotate" with
        | some rotRef =>
          match ResolveObject fuel ext st rotRef with
          | .error _ => .error "Failed to resolve rotate object"
          | .ok (res, st) =>
            if res.type = PDFTypeObject then
              match deref res.value with
              | .error e => .error e
              | .ok rv => .ok (rv, st)
            else .ok (res, st)
        | none =>
          match alookup pv.dictionary "/Parent" with
          | some parRef =>
            match getPageRotationAux fuel ext st parRef with
            | .error e => .error (e ++ ":Failed to get page rotation for parent")
            | .ok (res, st) =>
              if res.type = PDFTypeObject then
                match deref res.value with
                | .error e => .error e
                | .ok rv => .ok (rv, st)
              else .ok (res, st)
          | none => .ok (.mk 0 "" "" 0 0 false [] [] 0 0 0 none none [], st)

/-- `GetPageRotation`: bounds check then `_getPageRotation`. -/
def GetPageRotation (fuel : Nat) (ext : Ext) (st : RState) (pageno : Int) :
    Except String (PdfValue × RState) :=
  if (st.pages.length : Int) < pageno then .error "page does not exist"
  else if pageno < 1 then .error "index out of range"
  else getPageRotationAux fuel ext st (st.pages.getD (pageno - 1).toNat zeroValue)

/-- `getPageContent`: resolve a single `/Contents` reference into a
one-element list, or flatten an array of references recursively. -/
def getPageContent (fuel : Nat) (ext : Ext) (st : RState) (objSpec : PdfValue) :
    Except String (List PdfValue × RState) :=
  match fuel with
  | 0 => .error "out of fuel"
  | fuel + 1 =>
    if objSpec.type = PDFTypeObjRef then
      match ResolveObject fuel ext st objSpec with
      | .error e => .error (e ++ ":Failed to resolve object")
      | .ok (content, st) => .ok ([content], st)
    else if objSpec.type = PDFTypeArray then
      let rec go (l : List PdfValue) (st : RState) (acc : List PdfValue) :
          Except String (List PdfValue × RState) :=
        match l with
        | [] => .ok (acc, st)
        | x :: rest =>
          match getPageContent fuel ext st x with
          | .error e => .error (e ++ ":Failed to get page content")
          | .ok (tmp, st) => go rest st (acc ++ tmp)
      go objSpec.array st []
    else .ok ([], st)

/-- `rebuildContentStream`: collect the `/Filter` chain (resolving a
reference), then apply each filter to the raw stream bytes; only
`/FlateDecode` is implemented. -/
def rebuildContentStream (fuel : Nat) (ext : Ext) (st : RState)
    (content : PdfValue) : Except String (List Nat × RState) :=
  match deref content.value with
  | .error e => .error e
  | .ok cv =>
    match
      (match alookup cv.dictionary "/Filter" with
      | none => .ok ([], st)
      | some filter0 =>
        match
          (if filter0.type = PDFTypeObjRef then
            match ResolveObject fuel ext st filter0 with
            | .error e => .error (e ++ ":Failed to resolve object")
            | .ok (tmpFilter, st) =>
              match tmpFilter.value with
              | none => .error "nil pointer dereference"
              | some fv => .ok (fv, st)
          else .ok (filter0, st) : Except String (PdfValue × RState)) with
        | .error e => .error e
        | .ok (filter, st) =>
          if filter.type = PDFTypeToken then .ok ([filter], st)
          else if filter.type = PDFTypeArray then .ok (filter.array, st)
          else .ok ([], st) : Except String (List PdfValue × RState)) with
    | .error e => .error e
    | .ok (filters, st) =>
      match deref content.stream with
      | .error e => .error e
      | .ok sv =>
        let rec go (fs : List PdfValue) (stream : List Nat) :
            Except String (List Nat) :=
          match fs with
          | [] => .ok stream
          | f :: rest =>
            if f.token = "/FlateDecode" then go rest (ext.inflate stream)
            else .error ("Unspported filter: " ++ f.token)
        match go filters sv.bytes with
        | .error e => .error e
        | .ok stream => .ok (stream, st)

/-- `GetContent`: concatenate the rebuilt streams of `/Contents`; a page
dictionary without `/Contents` yields the empty string. -/
def GetContent (fuel : Nat) (ext : Ext) (st : RState) (pageno : Int) :
    Except String (String × RState) :=
  if (st.pages.length : Int) < pageno then .error "page does not exist"
  else if pageno < 1 then .error "index out of range"
  else
    let page := st.pages.getD (pageno - 1).toNat zeroValue
    match deref page.value with
    | .error e => .error e
    | .ok pv =>
      match alookup pv.dictionary "/Contents" with
      | none => .ok ("", st)
      | some contentsRef =>
        match getPageContent fuel ext st contentsRef with
        | .error e => .error (e ++ ":Failed to get page content")
        | .ok (contents, st) =>
          let rec go (l : List PdfValue) (st : RState) (buffer : String) :
              Except String (String × RState) :=
            match l with
            | [] => .ok (buffer, st)
            | c :: rest =>
              match rebuildContentStream fuel ext st c with
              | .error e => .error (e ++ ":Failed to rebuild content stream")
              | .ok (tmp, st) =>
                go rest st (buffer ++ String.mk (tmp.map Char.ofNat))
          go contents st ""

/-- `GetNumPages`: the stored page count; zero is an error. -/
def GetNumPages (st : RState) : Except String Int :=
  if st.pageCount = 0 then .error "Page count is 0"
  else .ok st.pageCount

end reader

namespace gofpdi

open reader

/-- `PdfObjectID` from `writer.go`: integer id plus content hash. -/
structure PdfObjectID where
  id : Int
  hash : String
  deriving Repr, DecidableEq

/-- `PdfObject`: the object currently being written.  The `serial` field
models Go pointer identity of the `*PdfObjectID` map keys: every
`newObj` allocates a fresh one. -/
structure PdfObject where
  serial : Nat
  idv : PdfObjectID
  buffer : List Char
  deriving Repr, DecidableEq

/-- `PdfTemplate` from `writer.go` (the `Reader` handle is threaded
separately as the explicit reader state; `ID` is unused by the modelled
operations). -/
structure PdfTemplate where
  resources : Option PdfValue
  buffer : String
  box : Option (List (String × ℚ))
  x : ℚ
  y : ℚ
  w : ℚ
  h : ℚ
  rotation : Int
  n : Int

/-- The mutable `PdfWriter` state from `writer.go`.  The two pointer-keyed
maps `writtenObjs` and `writtenObjPos` are keyed by the model's object
serial; `nextIDStream` models the optional `NextObjectID` callback as a
pre-chosen stream of ids (empty = no callback, plain increments). -/
structure WState where
  rSourceFile : String
  tpls : List (Option PdfTemplate)
  nextOjbID : Int
  objStack : List (Int × Option PdfValue)
  doOobjStack : List (Int × Option PdfValue)
  writtenObjs : List (Nat × PdfObjectID × List Char)
  writtenObjPos : List (Nat × List (Nat × String))
  currentObj : PdfObject
  objSerial : Nat
  tplIDOffset : Int
  nextIDStream : List Int

/-- The writer state produced by `NewPdfWriter()`. -/
def NewPdfWriter : WState :=
  ⟨"", [], 0, [], [], [], [], ⟨0, ⟨0, ""⟩, []⟩, 1, 0, []⟩

/-- Go map read of a nil-able box map: a nil map and a missing key both
read as the zero value. -/
def boxGet (b : Option (List (String × ℚ))) (k : String) : ℚ :=
  match b with
  | none => 0
  | some l => (alookup l k).getD 0

/-- `shaOfInt`: SHA-1 hex of `"<id>-<sourceFile>"`. -/
def shaOfInt (ext : Ext) (st : WState) (i : Int) : String :=
  ext.sha1hex (toString i ++ "-" ++ st.rSourceFile)

/-- Entry update of `writtenObjPos[currentObj.id][pos] = sha` for the
serial-keyed position map. -/
def posUpdate (l : List (Nat × List (Nat × String))) (ser : Nat) (pos : Nat)
    (sha : String) : List (Nat × List (Nat × String)) :=
  match l with
  | [] => []
  | (s2, pm) :: rest =>
    if s2 = ser then (s2, (pos, sha) :: pm) :: rest
    else (s2, pm) :: posUpdate rest ser pos sha

/-- `newObj(objID, onlyNewObj)`: advance the id allocator when `objID <
0`; unless `onlyNewObj`, start a fresh current object with a fresh
pointer (serial), its hash id, and an empty position map. -/
def newObj (ext : Ext) (objID : Int) (onlyNewObj : Bool) (st : WState) : WState :=
  let p :=
    if objID < 0 then
      match st.nextIDStream with
      | h :: t => (h, { st with nextOjbID := h, nextIDStream := t })
      | [] => (st.nextOjbID + 1, { st with nextOjbID := st.nextOjbID + 1 })
    else (objID, st)
  let objID2 := p.1
  let st := p.2
  if onlyNewObj then st
  else
    { st with
      currentObj := ⟨st.objSerial, ⟨objID2, shaOfInt ext st objID2⟩, []⟩,
      objSerial := st.objSerial + 1,
      writtenObjPos := (st.objSerial, []) :: st.writtenObjPos }

/-- `endObj`: snapshot the current buffer into `writtenObjs`. -/
def endObj (st : WState) : WState :=
  { st with writtenObjs :=
      (st.currentObj.serial, st.currentObj.idv, st.currentObj.buffer) ::
        st.writtenObjs }

/-- `straightOut`: append to the current buffer. -/
def straightOut (s : String) (st : WState) : WState :=
  { st with currentObj :=
      { st.currentObj with buffer := st.currentObj.buffer ++ s.toList } }

/-- `out`: append plus a newline. -/
def out (s : String) (st : WState) : WState :=
  { st with currentObj :=
      { st.currentObj with buffer := st.currentObj.buffer ++ s.toList ++ ['\n'] } }

/-- `outObjRef(objID)`: record `(position, hash-of-objID)` in the current
object's position map, then write the decimal id and ` 0 R `.  (This is
the `writer.go` variant: integer mode only.) -/
def outObjRef (ext : Ext) (objID : Int) (st : WState) : WState :=
  let sha := shaOfInt ext st objID
  let pm := posUpdate st.writtenObjPos st.currentObj.serial
    st.currentObj.buffer.length sha
  let st := { st with writtenObjPos := pm }
  { st with currentObj :=
      { st.currentObj with buffer :=
          st.currentObj.buffer ++ (toString objID).toList ++ (" 0 R ").toList } }

/-- Read of `objStack[k]`, where both a missing key and a stored nil read
as Go nil. -/
def ostackGet (l : List (Int × Option PdfValue)) (k : Int) : Option PdfValue :=
  match ilookup l k with
  | some (some v) => some v
  | _ => none

/-- `writeValue` from `writer.go`: serialize one `PdfValue` into the
current buffer; indirect references are renumbered through
`doOobjStack`/`objStack`, reserving a fresh new-id on first sight.  The
fuel only bounds the structural recursion (nested arrays and
dictionaries); exhaustion leaves the state unchanged. -/
def writeValue (fuel : Nat) (ext : Ext) (st : WState) (v : PdfValue) : WState :=
  match fuel with
  | 0 => st
  | fuel + 1 =>
    if v.type = PDFTypeToken then straightOut (v.token ++ " ") st
    else if v.type = PDFTypeNumeric then straightOut (toString v.int ++ " ") st
    else if v.type = PDFTypeReal then straightOut (ext.fmtF v.real ++ " ") st
    else if v.type = PDFTypeArray then
      let st := straightOut "[" st
      let st := v.array.foldl (fun st c => writeValue fuel ext st c) st
      out "]" st
    else if v.type = PDFTypeDictionary then
      let st := straightOut "<<" st
      let st := v.dictionary.foldl
        (fun st kv => writeValue fuel ext (straightOut (kv.1 ++ " ") st) kv.2) st
      straightOut ">>" st
    else if v.type = PDFTypeObjRef then
      let st :=
        if (ilookup st.doOobjStack v.id).isNone then
          let st := newObj ext (-1) true st
          let entry := mkObjRefNew v.id v.gen st.nextOjbID
          { st with objStack := (v.id, some entry) :: st.objStack,
                    doOobjStack := (v.id, some entry) :: st.doOobjStack }
        else st
      let objID := ((ostackGet st.doOobjStack v.id).map PdfValue.newID).getD 0
      outObjRef ext objID st
    else if v.type = PDFTypeString then straightOut ("(" ++ v.str ++ ")") st
    else if v.type = PDFTypeStream then
      let st := writeValue fuel ext st (v.value.getD zeroValue)
      let st := out "stream" st
      let st := out (String.mk ((v.stream.getD zeroValue).bytes.map Char.ofNat)) st
      out "endstream" st
    else if v.type = PDFTypeHex then straightOut ("<" ++ v.str ++ ">") st
    else if v.type = PDFTypeBoolean then
      if v.bool then straightOut "true" st else straightOut "false" st
    else if v.type = PDFTypeNull then straightOut "null " st
    else st

/-- The inner `for i := 0; i < 9999; i++` pass of `putImportedObjects`:
`count` iterations starting at id `i`; entries found on `objStack` are
resolved, written under their reserved new-id and then nulled out. -/
def drainPass (fuel : Nat) (ext : Ext) (i : Nat) (count : Nat)
    (atLeastOne : Bool) (rst : RState) (wst : WState) :
    Except String (Bool × RState × WState) :=
  match count with
  | 0 => .ok (atLeastOne, rst, wst)
  | count + 1 =>
    match ostackGet wst.objStack (i : Int) with
    | none => drainPass fuel ext (i + 1) count atLeastOne rst wst
    | some v =>
      match ResolveObject fuel ext rst v with
      | .error e => .error (e ++ ": Unable to resolve object")
      | .ok (nObj, rst) =>
        let wst := newObj ext v.newID false wst
        let wst :=
          if nObj.type = PDFTypeStream then writeValue fuel ext wst nObj
          else writeValue fuel ext wst (nObj.value.getD zeroValue)
        let wst := endObj wst
        let wst := { wst with objStack := ((i : Int), none) :: wst.objStack }
        drainPass fuel ext (i + 1) count true rst wst

/-- `putImportedObjects`: repeat the 9999-id drain pass until a pass
finds no pending entry. -/
def putImportedObjects (fuel : Nat) (ext : Ext) (rst : RState) (wst : WState) :
    Except String (RState × WState) :=
  match fuel with
  | 0 => .error "out of fuel"
  | fuel + 1 =>
    match drainPass fuel ext 0 9999 false rst wst with
    | .error e => .error e
    | .ok (atLeastOne, rst, wst) =>
      if atLeastOne then putImportedObjects fuel ext rst wst
      else .ok (rst, wst)

/-- The `/Matrix` translation table of `PutFormXobjects` (rotation
handling): `c`, `s`, `tx`, `ty` for one template.  The abstract `qcos`
and `qsin` take the rotation in degrees (the `π/180` conversion is
folded into the abstracted trigonometric functions). -/
def matrixParams (ext : Ext) (tpl : PdfTemplate) : ℚ × ℚ × ℚ × ℚ :=
  match tpl.box with
  | some _ =>
    let tx := -(boxGet tpl.box "llx")
    let ty := -(boxGet tpl.box "lly")
    if tpl.rotation ≠ 0 then
      let c := ext.qcos (tpl.rotation : ℚ)
      let s := ext.qsin (tpl.rotation : ℚ)
      if tpl.rotation = -90 then (c, s, -(boxGet tpl.box "lly"), boxGet tpl.box "urx")
      else if tpl.rotation = -180 then (c, s, boxGet tpl.box "urx", boxGet tpl.box "ury")
      else if tpl.rotation = -270 then (c, s, boxGet tpl.box "ury", -(boxGet tpl.box "llx"))
      else (c, s, tx, ty)
    else (1, 0, tx, ty)
  | none => (1, 0, -(boxGet tpl.box "x") * 2, boxGet tpl.box "y" * 2)

/-- The straight-line body of one `PutFormXobjects` template iteration
(everything before the `putImportedObjects` drain): compress, allocate
the form id, emit the dictionary, matrix, resources walk and stream,
and close the object, returning the template-map entry. -/
def emitTemplate (fuel : Nat) (ext : Ext) (i : Nat) (tpl : PdfTemplate)
    (wst : WState) : Except String ((String × PdfObjectID) × WState) :=
  let filter := "/Filter /FlateDecode "
  let p := ext.deflate tpl.buffer
  let wst := newObj ext (-1) false wst
  let cN := wst.nextOjbID
  let tpls2 := wst.tpls.set i (some { tpl with n := cN })
  let wst := { wst with tpls := tpls2 }
  let pdfObjID : PdfObjectID := ⟨cN, shaOfInt ext wst cN⟩
  let wst := out ("<<" ++ filter ++ "/Type /XObject") wst
  let wst := out "/Subtype /Form" wst
  let wst := out "/FormType 1" wst
  let wst := out ("/BBox [" ++ ext.fmt2 (boxGet tpl.box "llx") ++ " " ++
      ext.fmt2 (boxGet tpl.box "lly") ++ " " ++
      ext.fmt2 (boxGet tpl.box "urx" + tpl.x) ++ " " ++
      ext.fmt2 (boxGet tpl.box "ury" - tpl.y) ++ "]") wst
  let q := matrixParams ext tpl
  let c := q.1
  let s := q.2.1
  let tx := q.2.2.1
  let ty := q.2.2.2
  let wst :=
    if c ≠ 1 ∨ s ≠ 0 ∨ tx ≠ 0 ∨ ty ≠ 0 then
      out ("/Matrix [" ++ ext.fmt5 c ++ " " ++ ext.fmt5 s ++ " " ++
        ext.fmt5 (-s) ++ " " ++ ext.fmt5 c ++ " " ++ ext.fmt5 tx ++ " " ++
        ext.fmt5 ty ++ "]") wst
    else wst
  let wst := out "/Resources " wst
  match tpl.resources with
  | none => .error "Template resources are empty"
  | some res =>
    let wst := writeValue fuel ext wst res
    let nN := wst.nextOjbID
    let wst := { wst with nextOjbID := cN }
    let wst := out ("/Length " ++ toString p.length ++ " >>") wst
    let wst := out "stream" wst
    let wst := out p wst
    let wst := out "endstream" wst
    let wst := endObj wst
    let wst := { wst with nextOjbID := nN }
    .ok ((("/GOFPDITPL" ++ toString ((i : Int) + wst.tplIDOffset)), pdfObjID), wst)

/-- The per-template emission loop of `PutFormXobjects`: emit each
template (`emitTemplate`), record its name map entry, then drain the
object stacks (`putImportedObjects`). -/
def putTplLoop (fuel : Nat) (ext : Ext) (tpls : List (Option PdfTemplate))
    (i : Nat) (rst : RState) (wst : WState)
    (result : List (String × PdfObjectID)) :
    Except String (List (String × PdfObjectID) × RState × WState) :=
  match tpls with
  | [] => .ok (result, rst, wst)
  | none :: _ => .error "Template is nil"
  | some tpl :: rest =>
    match emitTemplate fuel ext i tpl wst with
    | .error e => .error e
    | .ok (entry, wst) =>
      let result := ainsert result entry.1 entry.2
      match putImportedObjects fuel ext rst wst with
      | .error e => .error (e ++ ": Failed to put imported objects")
      | .ok (rst, wst) => putTplLoop fuel ext rest (i + 1) rst wst result

/-- `PutFormXobjects` from `writer.go`: emit one Form XObject per
template plus every transitively referenced object, returning the
template-name map. -/
def PutFormXobjects (fuel : Nat) (ext : Ext) (rst : RState) (wst : WState) :
    Except String (List (String × PdfObjectID) × RState × WState) :=
  let wst := { wst with rSourceFile := rst.sourceFile }
  putTplLoop fuel ext wst.tpls 0 rst wst []

/-- Box-map read used by `GetPDFBoxDimensions` (`pb[p][boxname]`; both
missing levels read as the empty/nil map). -/
def pbGet (pb : List (Int × List (String × List (String × ℚ)))) (p : Int)
    (box : String) : List (String × ℚ) :=
  ((ilookup pb p).bind (fun m => alookup m box)).getD []

/-- `intersectBox`: clamp a box into the media box and recompute
`x`, `y`, `w`, `h`. -/
def intersectBox (bx mediabox : List (String × ℚ)) : List (String × ℚ) :=
  let bget := fun (l : List (String × ℚ)) k => (alookup l k).getD 0
  let nb := bx
  let nb := if bget bx "lly" < bget mediabox "lly" then
      ainsert nb "lly" (bget mediabox "lly") else nb
  let nb := if bget bx "llx" < bget mediabox "llx" then
      ainsert nb "llx" (bget mediabox "llx") else nb
  let nb := if bget bx "ury" > bget mediabox "ury" then
      ainsert nb "ury" (bget mediabox "ury") else nb
  let nb := if bget bx "urx" > bget mediabox "urx" then
      ainsert nb "urx" (bget mediabox "urx") else nb
  let nb := ainsert nb "x" (bget nb "llx")
  let nb := ainsert nb "y" (bget nb "lly")
  let nb := ainsert nb "w" (bget nb "urx" - bget nb "llx")
  let nb := ainsert nb "h" (bget nb "ury" - bget nb "lly")
  nb

/-- `GetPDFBoxDimensions` from `writer.go`: page-range check, then the
requested box out of `GetAllPageBoxes(1.0)`; an empty result falls back
one step (`/CropBox` to `/MediaBox`; `/ArtBox`, `/BleedBox`, `/TrimBox`
to `/CropBox`), other unknown boxes error; a non-media box is
intersected with the media box. -/
def GetPDFBoxDimensions (fuel : Nat) (ext : Ext) (rst : RState) (p : Int)
    (boxname : String) : Except String (List (String × ℚ) × RState) :=
  match GetNumPages rst with
  | .error e => .error e
  | .ok numPages =>
    if p > numPages then
      .error "cannot get the page number of the PDF"
    else
      match GetAllPageBoxes fuel ext rst 1 with
      | .error e => .error e
      | .ok (pb, rst) =>
        let bx := pbGet pb p boxname
        if bx.length = 0 then
          if boxname = "/CropBox" then .ok (pbGet pb p "/MediaBox", rst)
          else if boxname = "/ArtBox" ∨ boxname = "/BleedBox" ∨
              boxname = "/TrimBox" then
            .ok (pbGet pb p "/CropBox", rst)
          else .error "could not find the box dimensions for the image"
        else if boxname = "/MediaBox" then .ok (bx, rst)
        else .ok (intersectBox bx (pbGet pb p "/MediaBox"), rst)

/-- The angle-normalization block of `ImportPage` (`writer.go` lines
180..201): `angle := rotation % 360` (Go truncated `%`); when nonzero,
swap width and height iff the number of 90-degree steps is odd, shift a
negative angle into range and store its negation. -/
def normalizeAngle (rot : Int) (w h : ℚ) : ℚ × ℚ × Int :=
  let angle := Int.tmod rot 360
  if angle ≠ 0 then
    let steps := Int.tdiv angle 90
    let wh := if Int.tmod steps 2 = 0 then (w, h) else (h, w)
    let angle2 := if angle < 0 then angle + 360 else angle
    (wh.1, wh.2, angle2 * (-1))
  else (w, h, 0)

/-- `PdfWriter.ImportPage` from `writer.go`: gather resources, content,
box dimensions and rotation, build the template (with normalized
rotation) and append it, returning its index. -/
def ImportPage (fuel : Nat) (ext : Ext) (rst : RState) (wst : WState)
    (pageno : Int) (boxName : String) :
    Except String (Int × RState × WState) :=
  let wst := { wst with rSourceFile := rst.sourceFile }
  match GetPageResources fuel ext rst pageno with
  | .error e => .error (e ++ ": Failed to get page resources")
  | .ok (pageResources, rst) =>
    match GetContent fuel ext rst pageno with
    | .error e => .error (e ++ ": Failed to get content")
    | .ok (content, rst) =>
      match GetPDFBoxDimensions fuel ext rst pageno boxName with
      | .error e => .error e
      | .ok (bx, rst) =>
        match GetPageRotation fuel ext rst pageno with
        | .error e => .error (e ++ ": Failed to get page rotation")
        | .ok (rotation, rst) =>
          let w0 := boxGet (some bx) "w"
          let h0 := boxGet (some bx) "h"
          let nrm := normalizeAngle rotation.int w0 h0
          let tpl : PdfTemplate :=
            ⟨some pageResources, content, some bx, 0, 0, nrm.1, nrm.2.1,
              nrm.2.2, 0⟩
          let wst := { wst with tpls := wst.tpls ++ [some tpl] }
          .ok ((wst.tpls.length : Int) - 1, rst, wst)

/-- `TplInfo` from `importer.go` (the writer pointer is the importer's
single writer and is left implicit). -/
structure TplInfo where
  sourceFile : String
  templateID : Int
  deriving Repr, DecidableEq

/-- The mutable `Importer` state from `importer.go`. -/
structure IState where
  writer : WState
  tplMap : List (Int × TplInfo)
  tplN : Int
  importedPages : List (Int × Int)

/-- `Importer.ImportPage` from `importer.go`: a page number already in
the `importedPages` cache returns its cached template number unchanged
(the `box` argument is not consulted); otherwise the writer imports the
page, the template map and cache are extended and the counter is
incremented. -/
def ImporterImportPage (fuel : Nat) (ext : Ext) (rst : RState) (imp : IState)
    (pageno : Int) (box : String) : Except String (Int × RState × IState) :=
  match ilookup imp.importedPages pageno with
  | some t => .ok (t, rst, imp)
  | none =>
    match ImportPage fuel ext rst imp.writer pageno box with
    | .error e => .error e
    | .ok (res, rst, wst) =>
      let tplN := imp.tplN
      .ok (tplN, rst,
        { writer := wst,
          tplMap := (tplN, ⟨"", res⟩) :: imp.tplMap,
          tplN := imp.tplN + 1,
          importedPages := (pageno, tplN) :: imp.importedPages })

end gofpdi

namespace gofpdiOld

open reader

/-- `PdfObjectID` from the older (hash-mode) writer source. -/
structure PdfObjectID where
  id : Int
  hash : String
  deriving Repr, DecidableEq

/-- `PdfObject` (current object) with the pointer-identity serial. -/
structure PdfObject where
  serial : Nat
  idv : PdfObjectID
  buffer : List Char
  deriving Repr, DecidableEq

/-- `PdfTemplate` from the older writer source (the `Boxes` map and the
reader handle are omitted: no modelled operation reads them). -/
structure PdfTemplate where
  resources : Option PdfValue
  buffer : String
  box : Option (List (String × ℚ))
  x : ℚ
  y : ℚ
  w : ℚ
  h : ℚ
  rotation : Int
  n : Int

/-- The mutable `PdfWriter` state of the older (hash-mode capable)
writer: scale `k`, id counter `n`, `currentObjID`, and the `useHash`
flag. -/
structure WState where
  rSourceFile : String
  k : ℚ
  tpls : List (Option PdfTemplate)
  n : Int
  objStack : List (Int × Option PdfValue)
  doOobjStack : List (Int × Option PdfValue)
  writtenObjs : List (Nat × PdfObjectID × List Char)
  writtenObjPos : List (Nat × List (Nat × String))
  currentObj : PdfObject
  currentObjID : Int
  objSerial : Nat
  tplIDOffset : Int
  useHash : Bool

/-- The writer state produced by `init()` (via `NewPdfWriter("")`). -/
def initWriter : WState :=
  ⟨"", 1, [], 0, [], [], [], [], ⟨0, ⟨0, ""⟩, []⟩, 0, 1, 0, false⟩

/-- `SetUseHash`. -/
def SetUseHash (b : Bool) (st : WState) : WState := { st with useHash := b }

/-- `shaOfInt`: SHA-1 hex of `"<id>-<sourceFile>"`. -/
def shaOfInt (ext : Ext) (st : WState) (i : Int) : String :=
  ext.sha1hex (toString i ++ "-" ++ st.rSourceFile)

/-- `writtenObjPos[currentObj.id][pos] = sha` on the serial-keyed map. -/
def posUpdate (l : List (Nat × List (Nat × String))) (ser : Nat) (pos : Nat)
    (sha : String) : List (Nat × List (Nat × String)) :=
  match l with
  | [] => []
  | (s2, pm) :: rest =>
    if s2 = ser then (s2, (pos, sha) :: pm) :: rest
    else (s2, pm) :: posUpdate rest ser pos sha

/-- `newObj(objID, onlyNewObj)` of the older writer: `pw.n++` allocation
when `objID < 0`; unless `onlyNewObj`, set `currentObjID` and start a
fresh current object with an empty position map. -/
def newObj (ext : Ext) (objID : Int) (onlyNewObj : Bool) (st : WState) : WState :=
  let p :=
    if objID < 0 then (st.n + 1, { st with n := st.n + 1 })
    else (objID, st)
  let objID2 := p.1
  let st := p.2
  if onlyNewObj then st
  else
    { st with
      currentObjID := objID2,
      currentObj := ⟨st.objSerial, ⟨objID2, shaOfInt ext st objID2⟩, []⟩,
      objSerial := st.objSerial + 1,
      writtenObjPos := (st.objSerial, []) :: st.writtenObjPos }

/-- `straightOut`. -/
def straightOut (s : String) (st : WState) : WState :=
  { st with currentObj :=
      { st.currentObj with buffer := st.currentObj.buffer ++ s.toList } }

/-- `out`. -/
def out (s : String) (st : WState) : WState :=
  { st with currentObj :=
      { st.currentObj with buffer := st.currentObj.buffer ++ s.toList ++ ['\n'] } }

/-- `endObj` of the older writer: write `endobj`, snapshot the buffer,
reset `currentObjID`. -/
def endObj (st : WState) : WState :=
  let st := out "endobj" st
  { st with
    writtenObjs :=
      (st.currentObj.serial, st.currentObj.idv, st.currentObj.buffer) ::
        st.writtenObjs,
    currentObjID := -1 }

/-- `outObjRef(objID)` of the older writer: record `(position, sha)` in
the current object's position map, then write the 40-character hash in
hash mode, else the decimal id, followed by ` 0 R `. -/
def outObjRef (ext : Ext) (objID : Int) (st : WState) : WState :=
  let sha := shaOfInt ext st objID
  let pm := posUpdate st.writtenObjPos st.currentObj.serial
    st.currentObj.buffer.length sha
  let st := { st with writtenObjPos := pm }
  let written := if st.useHash then sha.toList else (toString objID).toList
  { st with currentObj :=
      { st.currentObj with buffer :=
          st.currentObj.buffer ++ written ++ (" 0 R ").toList } }

/-- Nil-tolerant `objStack[k]` read. -/
def ostackGet (l : List (Int × Option PdfValue)) (k : Int) : Option PdfValue :=
  match ilookup l k with
  | some (some v) => some v
  | _ => none

/-- `writeValue` of the older writer (identical structure to the current
one; references go through `doOobjStack` and `outObjRef`). -/
def writeValue (fuel : Nat) (ext : Ext) (st : WState) (v : PdfValue) : WState :=
  match fuel with
  | 0 => st
  | fuel + 1 =>
    if v.type = PDFTypeToken then straightOut (v.token ++ " ") st
    else if v.type = PDFTypeNumeric then straightOut (toString v.int ++ " ") st
    else if v.type = PDFTypeReal then straightOut (ext.fmtF v.real ++ " ") st
    else if v.type = PDFTypeArray then
      let st := straightOut "[" st
      let st := v.array.foldl (fun st c => writeValue fuel ext st c) st
      out "]" st
    else if v.type = PDFTypeDictionary then
      let st := straightOut "<<" st
      let st := v.dictionary.foldl
        (fun st kv => writeValue fuel ext (straightOut (kv.1 ++ " ") st) kv.2) st
      straightOut ">>" st
    else if v.type = PDFTypeObjRef then
      let st :=
        if (ilookup st.doOobjStack v.id).isNone then
          let st := newObj ext (-1) true st
          let entry := mkObjRefNew v.id v.gen st.n
          { st with objStack := (v.id, some entry) :: st.objStack,
                    doOobjStack := (v.id, some entry) :: st.doOobjStack }
        else st
      let objID := ((ostackGet st.doOobjStack v.id).map PdfValue.newID).getD 0
      outObjRef ext objID st
    else if v.type = PDFTypeString then straightOut ("(" ++ v.str ++ ")") st
    else if v.type = PDFTypeStream then
      let st := writeValue fuel ext st (v.value.getD zeroValue)
      let st := out "stream" st
      let st := out (String.mk ((v.stream.getD zeroValue).bytes.map Char.ofNat)) st
      out "endstream" st
    else if v.type = PDFTypeHex then straightOut ("<" ++ v.str ++ ">") st
    else if v.type = PDFTypeBoolean then
      if v.bool then straightOut "true" st else straightOut "false" st
    else if v.type = PDFTypeNull then straightOut "null " st
    else st

/-- The inner 9999-id pass of the older `putImportedObjects`. -/
def drainPass (fuel : Nat) (ext : Ext) (i : Nat) (count : Nat)
    (atLeastOne : Bool) (rst : RState) (wst : WState) :
    Except String (Bool × RState × WState) :=
  match count with
  | 0 => .ok (atLeastOne, rst, wst)
  | count + 1 =>
    match ostackGet wst.objStack (i : Int) with
    | none => drainPass fuel ext (i + 1) count atLeastOne rst wst
    | some v =>
      match ResolveObject fuel ext rst v with
      | .error e => .error (e ++ ": Unable to resolve object")
      | .ok (nObj, rst) =>
        let wst := newObj ext v.newID false wst
        let wst :=
          if nObj.type = PDFTypeStream then writeValue fuel ext wst nObj
          else writeValue fuel ext wst (nObj.value.getD zeroValue)
        let wst := endObj wst
        let wst := { wst with objStack := ((i : Int), none) :: wst.objStack }
        drainPass fuel ext (i + 1) count true rst wst

/-- The older `putImportedObjects`: repeat the drain pass to a fixed
point. -/
def putImportedObjects (fuel : Nat) (ext : Ext) (rst : RState) (wst : WState) :
    Except String (RState × WState) :=
  match fuel with
  | 0 => .error "out of fuel"
  | fuel + 1 =>
    match drainPass fuel ext 0 9999 false rst wst with
    | .error e => .error e
    | .ok (atLeastOne, rst, wst) =>
      if atLeastOne then putImportedObjects fuel ext rst wst
      else .ok (rst, wst)

/-- Nil-map box read. -/
def boxGet (b : Option (List (String × ℚ))) (k : String) : ℚ :=
  match b with
  | none => 0
  | some l => (alookup l k).getD 0

/-- The `/Matrix` parameters of the older `PutFormXobjects` (before the
`*= pw.k` scaling of `tx`/`ty`). -/
def matrixParams (ext : Ext) (tpl : PdfTemplate) : ℚ × ℚ × ℚ × ℚ :=
  match tpl.box with
  | some _ =>
    let tx := -(boxGet tpl.box "llx")
    let ty := -(boxGet tpl.box "lly")
    if tpl.rotation ≠ 0 then
      let c := ext.qcos (tpl.rotation : ℚ)
      let s := ext.qsin (tpl.rotation : ℚ)
      if tpl.rotation = -90 then (c, s, -(boxGet tpl.box "lly"), boxGet tpl.box "urx")
      else if tpl.rotation = -180 then (c, s, boxGet tpl.box "urx", boxGet tpl.box "ury")
      else if tpl.rotation = -270 then (c, s, boxGet tpl.box "ury", -(boxGet tpl.box "llx"))
      else (c, s, tx, ty)
    else (1, 0, tx, ty)
  | none => (1, 0, -(boxGet tpl.box "x") * 2, boxGet tpl.box "y" * 2)

/-- The straight-line body of one template iteration of the older
`PutFormXobjects` (BBox and `tx`/`ty` scaled by `pw.k`), before the
drain: returns the template-map entry. -/
def emitTemplate (fuel : Nat) (ext : Ext) (i : Nat) (tpl : PdfTemplate)
    (wst : WState) : Except String ((String × PdfObjectID) × WState) :=
  let filter := "/Filter /FlateDecode "
  let p := ext.deflate tpl.buffer
  let wst := newObj ext (-1) false wst
  let cN := wst.n
  let tpls2 := wst.tpls.set i (some { tpl with n := cN })
  let wst := { wst with tpls := tpls2 }
  let pdfObjID : PdfObjectID := ⟨cN, shaOfInt ext wst cN⟩
  let wst := out ("<<" ++ filter ++ "/Type /XObject") wst
  let wst := out "/Subtype /Form" wst
  let wst := out "/FormType 1" wst
  let wst := out ("/BBox [" ++ ext.fmt2 (boxGet tpl.box "llx" * wst.k) ++ " " ++
      ext.fmt2 (boxGet tpl.box "lly" * wst.k) ++ " " ++
      ext.fmt2 ((boxGet tpl.box "urx" + tpl.x) * wst.k) ++ " " ++
      ext.fmt2 ((boxGet tpl.box "ury" - tpl.y) * wst.k) ++ "]") wst
  let q := matrixParams ext tpl
  let c := q.1
  let s := q.2.1
  let tx := q.2.2.1 * wst.k
  let ty := q.2.2.2 * wst.k
  let wst :=
    if c ≠ 1 ∨ s ≠ 0 ∨ tx ≠ 0 ∨ ty ≠ 0 then
      out ("/Matrix [" ++ ext.fmt5 c ++ " " ++ ext.fmt5 s ++ " " ++
        ext.fmt5 (-s) ++ " " ++ ext.fmt5 c ++ " " ++ ext.fmt5 tx ++ " " ++
        ext.fmt5 ty ++ "]") wst
    else wst
  let wst := out "/Resources " wst
  match tpl.resources with
  | none => .error "Template resources are empty"
  | some res =>
    let wst := writeValue fuel ext wst res
    let nN := wst.n
    let wst := { wst with n := cN }
    let wst := out ("/Length " ++ toString p.length ++ " >>") wst
    let wst := out "stream" wst
    let wst := out p wst
    let wst := out "endstream" wst
    let wst := endObj wst
    let wst := { wst with n := nN }
    .ok ((("/GOFPDITPL" ++ toString ((i : Int) + wst.tplIDOffset)), pdfObjID), wst)

/-- The per-template loop of the older `PutFormXobjects`. -/
def putTplLoop (fuel : Nat) (ext : Ext) (tpls : List (Option PdfTemplate))
    (i : Nat) (rst : RState) (wst : WState)
    (result : List (String × PdfObjectID)) :
    Except String (List (String × PdfObjectID) × RState × WState) :=
  match tpls with
  | [] => .ok (result, rst, wst)
  | none :: _ => .error "Template is nil"
  | some tpl :: rest =>
    match emitTemplate fuel ext i tpl wst with
    | .error e => .error e
    | .ok (entry, wst) =>
      let result := ainsert result entry.1 entry.2
      match putImportedObjects fuel ext rst wst with
      | .error e => .error (e ++ ": Failed to put imported objects")
      | .ok (rst, wst) => putTplLoop fuel ext rest (i + 1) rst wst result

/-- The older `PutFormXobjects`. -/
def PutFormXobjects (fuel : Nat) (ext : Ext) (rst : RState) (wst : WState) :
    Except String (List (String × PdfObjectID) × RState × WState) :=
  let wst := { wst with rSourceFile := rst.sourceFile }
  putTplLoop fuel ext wst.tpls 0 rst wst []

/-- `GetImportedObjHashPos` (the raw serial-keyed position map; the
importer keys the outer level by the object hash). -/
def GetImportedObjHashPos (st : WState) : List (Nat × List (Nat × String)) :=
  st.writtenObjPos

/-- `Importer.PutFormXobjectsUnordered` from `importer.go`: switch the
writer into hash mode, emit, and return template names keyed to the
object hashes. -/
def PutFormXobjectsUnordered (fuel : Nat) (ext : Ext) (rst : RState)
    (wst : WState) :
    Except String (List (String × String) × RState × WState) :=
  let wst := SetUseHash true wst
  match PutFormXobjects fuel ext rst wst with
  | .error e => .error e
  | .ok (tplNamesIds, rst, wst) =>
    .ok (tplNamesIds.map (fun kv => (kv.1, kv.2.hash)), rst, wst)

end gofpdiOld

namespace reader

/-- Modelled from the spec (§4.3/§8, the PNG definition of the Paeth
predictor, RFC 2083): pick among left `a`, above `b`, upper-left `c`
the value whose candidate `p = a + b - c` is closest, ties resolved in
the order `a`, `b`, `c`. -/
def paethPredictor (a b c : Int) : Int :=
  let p := a + b - c
  let pa := ((p - a).natAbs : Int)
  let pb := ((p - b).natAbs : Int)
  let pc := ((p - c).natAbs : Int)
  if pa ≤ pb ∧ pa ≤ pc then a else if pb ≤ pc then b else c

/-- Modelled from the spec: the data bytes of one PNG Paeth-filtered
scanline (filter type 4, one byte per pixel): each raw byte minus the
Paeth predictor of its raw neighbours, modulo 256.  `a`/`c` are the raw
left and upper-left bytes, `bs` the remaining raw bytes of the row
above. -/
def paethEncodeRowAux (xs bs : List Nat) (a c : Nat) : List Nat :=
  match xs with
  | [] => []
  | x :: xs2 =>
    let b := bs.headD 0
    (((x : Int) - paethPredictor a b c).emod 256).toNat ::
      paethEncodeRowAux xs2 bs.tail x b

/-- Modelled from the spec: PNG Paeth encoding of a byte matrix, one
scanline per row, each prefixed with the filter-type tag byte 4; the
row above the first is all zeros. -/
def paethEncodeAux (rows : List (List Nat)) (above : List Nat) : List Nat :=
  match rows with
  | [] => []
  | r :: rest => (4 :: paethEncodeRowAux r above 0 0) ++ paethEncodeAux rest r

/-- Modelled from the spec: PNG Paeth encoding of a width-`w` matrix. -/
def paethEncode (w : Nat) (m : List (List Nat)) : List Nat :=
  paethEncodeAux m (List.replicate w 0)

/-- Modelled from the spec: the data bytes of one PNG Up-filtered
scanline (filter type 2): each raw byte minus the raw byte above,
modulo 256. -/
def upEncodeRowAux (xs bs : List Nat) : List Nat :=
  match xs with
  | [] => []
  | x :: xs2 =>
    (((x : Int) - (bs.headD 0 : Int)).emod 256).toNat :: upEncodeRowAux xs2 bs.tail

/-- Modelled from the spec: PNG Up encoding of a byte matrix, one
scanline per row, each prefixed with the filter-type tag byte 2. -/
def upEncodeAux (rows : List (List Nat)) (above : List Nat) : List Nat :=
  match rows with
  | [] => []
  | r :: rest => (2 :: upEncodeRowAux r above) ++ upEncodeAux rest r

/-- Modelled from the spec: PNG Up encoding of a width-`w` matrix. -/
def upEncode (w : Nat) (m : List (List Nat)) : List Nat :=
  upEncodeAux m (List.replicate w 0)

end reader

section ConcreteInstances

open reader

/-- A fully concrete `Ext` for closed runs: identity codecs and hash,
trivial formatters. -/
def ext0 : Ext := ⟨id, id, id, fun _ => "", fun _ => "0.00", fun _ => "0.00",
  fun _ => 0, fun _ => 0⟩

/-- An `Ext` whose hash function returns a fixed forty-character string
(for hash-mode runs). -/
def ext40 : Ext :=
  { ext0 with sha1hex := fun _ => "aaaaaaaaaaaaaaaaaaaaaaaaaaaaaaaaaaaaaaaa" }

/-- C2 input: the older revision's classic xref table (placed at offset
0 so that the newer table's `/Prev 0` points at it).  Object 1 has
offset 300 here. -/
def oldTableC2 : String := "xref\n1 1\n0000000300 00000 n \ntrailer\n<< >>\n"

/-- C2 input: the newest revision's classic xref table: object 1 has
offset 200 here, and `/Prev 0` chains to the older table. -/
def newTableC2 : String :=
  "xref\n1 1\n0000000200 00000 n \ntrailer\n<< /Root 2 0 R /Prev 0 >>\n"

/-- C2 input: reader state whose stream holds both tables, with
`xrefPos` pointing at the newest one. -/
def rstC2 : RState :=
  ⟨[], none, [], (oldTableC2.length : Int), [], [],
    ⟨(oldTableC2 ++ newTableC2).toList, 0⟩, "prev.pdf", 0⟩

/-- The final xref map after `readXref` on the C2 input. -/
def xrefC2 : Option (List (Int × List (Int × Int))) :=
  (readXref 20 ext0 rstC2).toOption.map RState.xref

/-- C3/C9/C10 input: a `/MediaBox` array `[0 0 612 792]`. -/
def mboxC3 : PdfValue :=
  mkArray [mkNumeric 0 "0", mkNumeric 0 "0", mkNumeric 612 "612",
    mkNumeric 792 "792"] "["

/-- C3/C9/C10 input: a resolved page whose dictionary has only
`/MediaBox` (no `/CropBox`, `/BleedBox`, `/Contents`, `/Resources` or
`/Parent`). -/
def pageC3 : PdfValue :=
  mkObject 1 0 (mkDict PDFTypeDictionary [("/MediaBox", mboxC3)] "<<")

/-- C3/C9/C10 input: a one-page reader state (nothing is read from the
stream: the page is already resolved). -/
def rstC3 : RState := ⟨[], none, [pageC3], 0, [], [], ⟨[], 0⟩, "c3.pdf", 1⟩

/-- C3 counterexample projections: the box map returned for a given box
name (dropping the reader state). -/
def boxDimsC3 (boxname : String) : Option (List (String × ℚ)) :=
  (gofpdi.GetPDFBoxDimensions 9 ext0 rstC3 1 boxname).toOption.map Prod.fst

/-- C3 witness projection: the all-pages box map of the C3 input. -/
def pbC3 : List (Int × List (String × List (String × ℚ))) :=
  match GetAllPageBoxes 9 ext0 rstC3 1 with
  | .ok (pb, _) => pb
  | .error _ => []

/-- C3 witness projection: the reader state after the C3 box run. -/
def rstC3out : RState :=
  match GetAllPageBoxes 9 ext0 rstC3 1 with
  | .ok (_, st) => st
  | .error _ => rstC3

/-- C1 input: a resources dictionary holding one indirect reference to
source object id 9999. -/
def res9999 : PdfValue :=
  mkDict PDFTypeDictionary [("/X", mkObjRef 9999 0 "")] "<<"

/-- C1 input: one template over `res9999`. -/
def tplC1 : gofpdi.PdfTemplate :=
  ⟨some res9999, "CONTENT",
    some [("llx", 0), ("lly", 0), ("urx", 10), ("ury", 10), ("x", 0), ("y", 0),
      ("w", 10), ("h", 10)], 0, 0, 10, 10, 0, 0⟩

/-- C1 input: a fresh writer holding the single template. -/
def wstC1 : gofpdi.WState := { gofpdi.NewPdfWriter with tpls := [some tplC1] }

/-- C1 input: a reader whose xref knows object 9999 (its body is never
read, because the drain loop never reaches id 9999). -/
def rstC1 : RState :=
  ⟨[], none, [], 0, [(9999, [(0, 0)])], [], ⟨[], 0⟩, "c.pdf", 0⟩

/-- The template-map entry produced by emitting the single C1 template
(projection of the `emitTemplate` run). -/
def entryC1 : String × gofpdi.PdfObjectID :=
  match gofpdi.emitTemplate 3 ext0 0 tplC1 { wstC1 with rSourceFile := "c.pdf" } with
  | .ok (e, _) => e
  | .error _ => ("", ⟨0, ""⟩)

/-- The writer state right after emitting the single C1 template, i.e.
just before the drain (projection of the `emitTemplate` run).  The C1
theorem shows the drain leaves it unchanged, its pending entry for
source id 9999 never emitted. -/
def wstEmitC1 : gofpdi.WState :=
  match gofpdi.emitTemplate 3 ext0 0 tplC1 { wstC1 with rSourceFile := "c.pdf" } with
  | .ok (_, w) => w
  | .error _ => gofpdi.NewPdfWriter

/-- C7/C8 witness input: a one-object body `1 0 obj << /A 5 >> endobj`. -/
def fileC7 : String := "1 0 obj << /A 5 >> endobj "

/-- C7/C8 witness input: reader state over `fileC7` with object 1 at
offset 0 and the cursor parked at position 7. -/
def rstC7 : RState :=
  ⟨[], none, [], 0, [(1, [(0, 0)])], [], ⟨fileC7.toList, 7⟩, "c7.pdf", 0⟩

/-- The reference resolved by the C7/C8 witness. -/
def refC7 : PdfValue := mkObjRef 1 0 ""

/-- The value returned by the C7 witness run. -/
def valC7 : PdfValue :=
  match ResolveObject 20 ext0 rstC7 refC7 with
  | .ok (v, _) => v
  | .error _ => zeroValue

/-- The reader state returned by the C7 witness run. -/
def stOutC7 : RState :=
  match ResolveObject 20 ext0 rstC7 refC7 with
  | .ok (_, st) => st
  | .error _ => rstC7

/-- C6 witness input: a resources dictionary with one reference to
object 7. -/
def resC6 : PdfValue := mkDict PDFTypeDictionary [("/X", mkObjRef 7 0 "")] "<<"

/-- C6 witness input: one template over `resC6` (rotated -90 so the
`/Matrix` test short-circuits on the cosine). -/
def tplC6 : gofpdiOld.PdfTemplate :=
  ⟨some resC6, "C", some [("llx", 0), ("lly", 0), ("urx", 10), ("ury", 10)],
    0, 0, 10, 10, -90, 0⟩

/-- C6 witness input: the old writer holding the single template. -/
def wstC6 : gofpdiOld.WState := { gofpdiOld.initWriter with tpls := [some tplC6] }

/-- C6 witness input: reader state where object 7 is a small string
object. -/
def rstC6 : RState :=
  ⟨[], none, [], 0, [(7, [(0, 0)])], [], ⟨("7 0 obj (hi) endobj ").toList, 0⟩,
    "c6.pdf", 0⟩

/-- The writer state entering the C6 template loop (hash mode on, the
reader's source file recorded). -/
def wstInC6 : gofpdiOld.WState :=
  { gofpdiOld.SetUseHash true wstC6 with rSourceFile := rstC6.sourceFile }

/-- The template-map entry produced by emitting the C6 template. -/
def entryC6 : String × gofpdiOld.PdfObjectID :=
  match gofpdiOld.emitTemplate 25 ext40 0 tplC6 wstInC6 with
  | .ok (e, _) => e
  | .error _ => ("", ⟨0, ""⟩)

/-- The writer state after emitting the C6 template (reference to source
object 7 still pending on the object stack). -/
def wstEmitC6 : gofpdiOld.WState :=
  match gofpdiOld.emitTemplate 25 ext40 0 tplC6 wstInC6 with
  | .ok (_, w) => w
  | .error _ => wstInC6

/-- The reader state after the drain step that emits source object 7. -/
def rstStepC6 : RState :=
  match gofpdiOld.drainPass 24 ext40 7 1 false rstC6 wstEmitC6 with
  | .ok (_, r, _) => r
  | .error _ => rstC6

/-- The writer state after the drain step that emits source object 7. -/
def wstStepC6 : gofpdiOld.WState :=
  match gofpdiOld.drainPass 24 ext40 7 1 false rstC6 wstEmitC6 with
  | .ok (_, _, w) => w
  | .error _ => wstEmitC6

/-- The template-name map (hash-keyed) returned by the C6 witness run. -/
def resOutC6 : List (String × String) := [(entryC6.1, entryC6.2.hash)]

/-- C9 witness input: an importer whose cache already holds page 1 as
template 5 (with the counter beyond it). -/
def impC9 : gofpdi.IState := ⟨gofpdi.NewPdfWriter, [], 6, [(1, 5)]⟩

/-- C9 witness input: a fresh importer (empty cache). -/
def impC9fresh : gofpdi.IState := ⟨gofpdi.NewPdfWriter, [], 0, []⟩

/-- Projections of the first C9 import run (page 1 of the one-page
reader): returned template number, reader state, importer state. -/
def tC9 : Int :=
  match gofpdi.ImporterImportPage 9 ext0 rstC3 impC9fresh 1 "/MediaBox" with
  | .ok (t, _, _) => t
  | .error _ => -1

/-- Reader state after the first C9 import run. -/
def rstOutC9 : RState :=
  match gofpdi.ImporterImportPage 9 ext0 rstC3 impC9fresh 1 "/MediaBox" with
  | .ok (_, r, _) => r
  | .error _ => rstC3

/-- Importer state after the first C9 import run. -/
def impOutC9 : gofpdi.IState :=
  match gofpdi.ImporterImportPage 9 ext0 rstC3 impC9fresh 1 "/MediaBox" with
  | .ok (_, _, i) => i
  | .error _ => impC9fresh

end ConcreteInstances

section Invariants

open reader

/-- The forty bytes of `buf` at `pos` spell exactly the forty-character
string `sha` (the hash-position fidelity property of one recorded
tuple). -/
def SliceOk (buf : List Char) (pos : Nat) (sha : String) : Prop :=
  sha.length = 40 ∧ (buf.drop pos).take 40 = sha.toList

/-- Structural invariant of the hash-mode writer: pointer serials are
fresh (below the allocation counter), and every tuple recorded in the
position map matches the buffer of the object it belongs to — the
in-progress buffer for the current object, the emitted snapshot for
finished ones. -/
def InvBase (st : gofpdiOld.WState) : Prop :=
  (∀ e ∈ st.writtenObjPos, e.1 < st.objSerial) ∧
  st.currentObj.serial < st.objSerial ∧
  (∀ ob ∈ st.writtenObjs, ob.1 < st.objSerial) ∧
  (∀ e ∈ st.writtenObjPos, ∀ ps ∈ e.2,
    (e.1 = st.currentObj.serial → SliceOk st.currentObj.buffer ps.1 ps.2) ∧
    (∀ ob ∈ st.writtenObjs, ob.1 = e.1 → SliceOk ob.2.2 ps.1 ps.2))

/-- `InvBase` plus hash mode switched on. -/
def InvH (st : gofpdiOld.WState) : Prop :=
  st.useHash = true ∧ InvBase st

/-- The current object has not been snapshotted yet (holds between
`newObj` and `endObj`; needed so that appending reference bytes cannot
invalidate an already-emitted snapshot). -/
def Dfresh (st : gofpdiOld.WState) : Prop :=
  ∀ ob ∈ st.writtenObjs, ob.1 ≠ st.currentObj.serial

end Invariants

section Theorems

open reader

/-- Characterization of Go's truncated `%` (`Int.tmod`) by the euclidean
`%` for a positive modulus. -/
theorem tmod_eq (a b : Int) (hb : 0 < b) :
    a.tmod b = if 0 ≤ a then a % b else -((-a) % b) := by
  rcases a with n | n <;> rcases b with m | m
  · simp [Int.tmod, Int.emod]
  · exact absurd hb (by simp [Int.negSucc_eq]; omega)
  · simp [Int.tmod, Int.emod, Int.negSucc_eq, Nat.succ_eq_add_one]
    omega
  · exact absurd hb (by simp [Int.negSucc_eq]; omega)

/-- Characterization of Go's truncated `/` (`Int.tdiv`) by the euclidean
`/` for a positive divisor. -/
theorem tdiv_eq (a b : Int) (hb : 0 < b) :
    a.tdiv b = if 0 ≤ a then a / b else -((-a) / b) := by
  rcases a with n | n <;> rcases b with m | m
  · simp [Int.tdiv, Int.ediv]
  · exact absurd hb (by simp [Int.negSucc_eq]; omega)
  · simp [Int.tdiv, Int.ediv, Int.negSucc_eq, Nat.succ_eq_add_one]
    omega
  · exact absurd hb (by simp [Int.negSucc_eq]; omega)

/-- C4: counterexample.  The code normalizes an input `/Rotate` of 90 to
a stored rotation of -90 (the claim's table demands -270 there); width
and height (2 and 3 in this instance) are swapped. -/
theorem C4_counterexample :
    gofpdi.normalizeAngle 90 2 3 = (3, 2, -90) ∧ ((-90 : Int) ≠ -270) := by
  constructor
  · decide
  · decide

/-- C4 (amended): for the claimed inputs {0, 90, 180, 270, -90, 450,
720} the stored rotations are {0, -90, -180, -270, -270, -90, 0} (not
the claim's {0, -270, -180, -90, -90, -270, 0}); and for every multiple
of 90 the stored rotation is one of 0, -90, -180, -270 with width and
height swapped exactly when the number of 90-degree steps is odd. -/
theorem C4_rotation_normalization_amended (w h : ℚ) :
    (gofpdi.normalizeAngle 0 w h = (w, h, 0) ∧
     gofpdi.normalizeAngle 90 w h = (h, w, -90) ∧
     gofpdi.normalizeAngle 180 w h = (w, h, -180) ∧
     gofpdi.normalizeAngle 270 w h = (h, w, -270) ∧
     gofpdi.normalizeAngle (-90) w h = (h, w, -270) ∧
     gofpdi.normalizeAngle 450 w h = (h, w, -90) ∧
     gofpdi.normalizeAngle 720 w h = (w, h, 0)) ∧
    (∀ rot : Int, 90 ∣ rot →
      ((gofpdi.normalizeAngle rot w h).2.2 = 0 ∨
       (gofpdi.normalizeAngle rot w h).2.2 = -90 ∨
       (gofpdi.normalizeAngle rot w h).2.2 = -180 ∨
       (gofpdi.normalizeAngle rot w h).2.2 = -270) ∧
      ((gofpdi.normalizeAngle rot w h).1, (gofpdi.normalizeAngle rot w h).2.1) =
        (if rot / 90 % 2 = 0 then (w, h) else (h, w))) := by
  constructor
  · refine ⟨?_, ?_, ?_, ?_, ?_, ?_, ?_⟩
    · simp [gofpdi.normalizeAngle, (by decide : Int.tmod 0 360 = 0)]
    · simp [gofpdi.normalizeAngle, (by decide : Int.tmod 90 360 = 90),
        (by decide : Int.tdiv 90 90 = 1), (by decide : Int.tmod 1 2 = 1)]
    · simp [gofpdi.normalizeAngle, (by decide : Int.tmod 180 360 = 180),
        (by decide : Int.tdiv 180 90 = 2), (by decide : Int.tmod 2 2 = 0)]
    · simp [gofpdi.normalizeAngle, (by decide : Int.tmod 270 360 = 270),
        (by decide : Int.tdiv 270 90 = 3), (by decide : Int.tmod 3 2 = 1)]
    · simp [gofpdi.normalizeAngle, (by decide : Int.tmod (-90) 360 = -90),
        (by decide : Int.tdiv (-90) 90 = -1), (by decide : Int.tmod (-1) 2 = -1)]
    · simp [gofpdi.normalizeAngle, (by decide : Int.tmod 450 360 = 90),
        (by decide : Int.tdiv 90 90 = 1), (by decide : Int.tmod 1 2 = 1)]
    · simp [gofpdi.normalizeAngle, (by decide : Int.tmod 720 360 = 0)]
  · rintro rot ⟨k, rfl⟩
    have h1 : ∀ a : Int, a.tmod 360 = if 0 ≤ a then a % 360 else -((-a) % 360) :=
      fun a => tmod_eq a 360 (by norm_num)
    have h2 : ∀ a : Int, a.tdiv 90 = if 0 ≤ a then a / 90 else -((-a) / 90) :=
      fun a => tdiv_eq a 90 (by norm_num)
    have h3 : ∀ a : Int, a.tmod 2 = if 0 ≤ a then a % 2 else -((-a) % 2) :=
      fun a => tmod_eq a 2 (by norm_num)
    unfold gofpdi.normalizeAngle
    simp only [h1, h2, h3]
    constructor
    · split_ifs <;> dsimp only <;> omega
    · split_ifs <;>
        first
          | rfl
          | omega

/-- C4 witness: the amended theorem applied at rotation 450, width 2,
height 3. -/
theorem C4_rotation_normalization_amended_witness :
    (90 : Int) ∣ 450 ∧
    ((gofpdi.normalizeAngle 450 2 3).2.2 = 0 ∨
     (gofpdi.normalizeAngle 450 2 3).2.2 = -90 ∨
     (gofpdi.normalizeAngle 450 2 3).2.2 = -180 ∨
     (gofpdi.normalizeAngle 450 2 3).2.2 = -270) ∧
    ((gofpdi.normalizeAngle 450 2 3).1, (gofpdi.normalizeAngle 450 2 3).2.1) =
      (if (450 : Int) / 90 % 2 = 0 then ((2 : ℚ), (3 : ℚ)) else (3, 2)) :=
  ⟨by decide,
    ((C4_rotation_normalization_amended 2 3).2 450 (by decide)).1,
    ((C4_rotation_normalization_amended 2 3).2 450 (by decide)).2⟩

/-- C2: code-bug evidence.  On a two-revision classic xref chain
(object 1 at offset 200 in the newest table, 300 in the `/Prev` older
table) `readXref` records the older row after the newer one, and the
map lookup therefore yields the older offset 300: the newer entry is
overwritten, contradicting the claim that first-seen (newest-revision)
entries are kept. -/
theorem C2_older_revision_overwrites :
    xrefC2 = some [(1, [(0, 300)]), (1, [(0, 200)])] ∧
    xrefC2.map (fun m => ilookup m 1) = some (some [(0, 300)]) ∧
    ((300 : Int) ≠ 200) :=
  ⟨by rfl, by rfl, by decide⟩

/-- C3: counterexample.  On a page having `/MediaBox` but neither
`/BleedBox` nor `/CropBox`, `GetPDFBoxDimensions` for `/BleedBox`
returns the empty box, not the `/MediaBox` box the claim demands. -/
theorem C3_counterexample :
    boxDimsC3 "/BleedBox" = some [] ∧
    (boxDimsC3 "/MediaBox").map (List.map Prod.fst) =
      some ["x", "y", "w", "h", "llx", "lly", "urx", "ury"] ∧
    boxDimsC3 "/BleedBox" ≠ boxDimsC3 "/MediaBox" := by
  refine ⟨by rfl, by rfl, fun h => ?_⟩
  have h2 : (boxDimsC3 "/BleedBox").map (List.map Prod.fst) =
      some ["x", "y", "w", "h", "llx", "lly", "urx", "ury"] := by
    rw [h]; rfl
  rw [show boxDimsC3 "/BleedBox" = some [] from rfl] at h2
  simp at h2

/-- C10: a valid page number whose page dictionary has no `/Contents`
key makes `GetContent` return the empty string with no error and the
state unchanged. -/
theorem C10_missing_contents_not_error (fuel : Nat) (ext : Ext) (st : RState)
    (pageno : Int) (v : PdfValue)
    (h1 : 1 ≤ pageno) (h2 : pageno ≤ (st.pages.length : Int))
    (hv : (st.pages.getD (pageno - 1).toNat zeroValue).value = some v)
    (hc : alookup v.dictionary "/Contents" = none) :
    GetContent fuel ext st pageno = .ok ("", st) := by
  simp only [GetContent, hv, hc, deref,
    if_neg (by omega : ¬((st.pages.length : Int) < pageno)),
    if_neg (by omega : ¬(pageno < 1))]

/-- C10 witness: the theorem applied to the concrete one-page reader
whose page has no `/Contents`. -/
theorem C10_missing_contents_not_error_witness :
    GetContent 9 ext0 rstC3 1 = .ok ("", rstC3) :=
  C10_missing_contents_not_error 9 ext0 rstC3 1
    (mkDict PDFTypeDictionary [("/MediaBox", mboxC3)] "<<")
    (by decide) (by decide) rfl (by rfl)

end Theorems

section TheoremsC1

open reader

/-- A successful `ilookup` hit is a member of the association list. -/
theorem ilookup_mem {α : Type} (l : List (Int × α)) (k : Int) (v : α)
    (h : ilookup l k = some v) : (k, v) ∈ l := by
  induction l with
  | nil => simp [ilookup] at h
  | cons hd tl ih =>
    rcases hd with ⟨k2, v2⟩
    rw [ilookup] at h
    split at h
    · rename_i hk
      cases h
      subst hk
      exact List.mem_cons_self _ _
    · exact List.mem_cons_of_mem _ (ih h)

/-- `drainPass` skips a run of ids that are absent from (or nulled on)
the object stack. -/
theorem drainPass_skip (fuel : Nat) (ext : Ext) (rst : RState) :
    ∀ (count1 count2 i : Nat) (b : Bool) (wst : gofpdi.WState),
    (∀ j : Nat, i ≤ j → j < i + count1 →
      gofpdi.ostackGet wst.objStack (j : Int) = none) →
    gofpdi.drainPass fuel ext i (count1 + count2) b rst wst =
      gofpdi.drainPass fuel ext (i + count1) count2 b rst wst := by
  intro count1
  induction count1 with
  | zero => intro count2 i b wst h; norm_num
  | succ n ih =>
    intro count2 i b wst h
    have e : n + 1 + count2 = (n + count2) + 1 := by omega
    rw [e]
    conv_lhs => rw [gofpdi.drainPass]
    rw [h i (le_refl i) (by omega)]
    have e2 : i + (n + 1) = (i + 1) + n := by omega
    rw [e2]
    exact ih count2 (i + 1) b wst (fun j hj1 hj2 => h j (by omega) (by omega))

/-- When every pending object-stack entry has a source id of 9999 or
more, `putImportedObjects` returns at once without emitting anything:
the drain loop only visits ids 0 through 9998. -/
theorem putImportedObjects_skips_9999 (fuel : Nat) (ext : Ext) (rst : RState)
    (wst : gofpdi.WState) (hf : fuel ≠ 0)
    (h : ∀ e ∈ wst.objStack, e.2.isSome = true → (9999 : Int) ≤ e.1) :
    gofpdi.putImportedObjects fuel ext rst wst = .ok (rst, wst) := by
  obtain ⟨f, rfl⟩ : ∃ f, fuel = f + 1 := ⟨fuel - 1, by omega⟩
  have hnone : ∀ j : Nat, 0 ≤ j → j < 0 + 9999 →
      gofpdi.ostackGet wst.objStack (j : Int) = none := by
    intro j _ hj
    cases hg : gofpdi.ostackGet wst.objStack (j : Int) with
    | none => rfl
    | some v =>
      exfalso
      unfold gofpdi.ostackGet at hg
      split at hg
      · rename_i heq
        cases hg
        have hmem := ilookup_mem _ _ _ heq
        have := h _ hmem rfl
        simp at this
        omega
      · cases hg
  have hskip := drainPass_skip f ext rst 9999 0 0 false wst hnone
  rw [gofpdi.putImportedObjects]
  rw [show (9999 : Nat) = 9999 + 0 from rfl, hskip]
  rfl

/-- C1 (code-bug evidence): emitting a template whose resources contain
an indirect reference to source object id 9999.  The reference is
renumbered to new-id 2, its position (byte 110) is recorded in the form XObject's
position map (hash `"2-c.pdf"` under the identity hash), but the drain
never visits id 9999: `PutFormXobjects` returns with the entry still
pending and new-id 2 absent from the imported-objects map — a dangling
reference. -/
theorem C1_drain_never_reaches_9999 :
    gofpdi.PutFormXobjects 3 ext0 rstC1 wstC1 =
      .ok ([entryC1], rstC1, wstEmitC1) ∧
    (gofpdi.ostackGet wstEmitC1.objStack 9999).map PdfValue.newID = some 2 ∧
    wstEmitC1.writtenObjs.map (fun e => e.2.1.id) = [1] ∧
    wstEmitC1.writtenObjPos = [(1, [(110, "2-c.pdf")])] ∧
    entryC1 = ("/GOFPDITPL0", ⟨1, "1-c.pdf"⟩) := by
  refine ⟨?_, by rfl, by rfl, by rfl, by rfl⟩
  show gofpdi.putTplLoop 3 ext0 [some tplC1] 0 rstC1
    { wstC1 with rSourceFile := "c.pdf" } [] = _
  rw [gofpdi.putTplLoop]
  rw [show gofpdi.emitTemplate 3 ext0 0 tplC1 { wstC1 with rSourceFile := "c.pdf" } =
    .ok (entryC1, wstEmitC1) from rfl]
  dsimp only
  rw [putImportedObjects_skips_9999 3 ext0 rstC1 wstEmitC1 (by decide) (by decide)]
  rfl

end TheoremsC1


section TheoremsC5
open reader

/-- C5 counterexample: a 2-wide byte matrix encoded with true PNG Paeth
prediction (predictor 12, tag byte 4) is NOT reproduced by the reader's
xref-stream decoding path: `[[1,2],[3,4]]` decodes to rows `[1,1,0]` and
`[3,2,0]` instead of `[1,2,0]` and `[3,4,0]`. -/
theorem C5_counterexample :
    xrefStreamRows (paethEncode 2 [[1, 2], [3, 4]]) 3 true =
      .ok [[1, 1, 0], [3, 2, 0]] ∧
    (Except.ok [[1, 1, 0], [3, 2, 0]] :
        Except String (List (List Nat))) ≠ .ok [[1, 2, 0], [3, 4, 0]] :=
  ⟨by rfl, by intro hcontra; simp at hcontra⟩

theorem paethChannel_single (cd pdat : List Nat) (bpp i : Nat)
    (h : i < cd.length) (hbpp : cd.length ≤ i + bpp) :
    paethChannel (cd.length + 1) cd pdat bpp i 0 0 =
      cd.set i ((((pdat.getD i 0 : Int) + (cd.getD i 0 : Int)).emod 256).toNat) := by
  rw [paethChannel, dif_pos h]
  have hg : cd.get ⟨i, h⟩ = cd.getD i 0 := by
    simp [List.getD_eq_getElem?_getD, List.getElem?_eq_getElem h]
  simp only [goAbs]
  split_ifs with h1 h2
  · have hb0 : ((pdat.getD i 0 : Int)) = 0 := by omega
    rw [hg, hb0]
    obtain ⟨m, hm⟩ : ∃ m, cd.length = m + 1 := ⟨cd.length - 1, by omega⟩
    rw [hm, paethChannel, dif_neg (by simp [List.length_set]; omega)]
  · rw [hg]
    obtain ⟨m, hm⟩ : ∃ m, cd.length = m + 1 := ⟨cd.length - 1, by omega⟩
    rw [hm, paethChannel, dif_neg (by simp [List.length_set]; omega)]
  · omega

theorem filterPaeth_fold_aux (pdat cd0 : List Nat) (n : Nat) :
    ∀ (m k : Nat) (cur : List Nat), k + m = n → cur.length = n →
      (∀ j, j < k → cur.getD j 0 =
        (((pdat.getD j 0 : Int) + (cd0.getD j 0 : Int)).emod 256).toNat) →
      (∀ j, k ≤ j → cur.getD j 0 = cd0.getD j 0) →
      ((List.range' k m).foldl
          (fun cd i => paethChannel (cd.length + 1) cd pdat n i 0 0) cur).length = n ∧
      ∀ j, j < n → ((List.range' k m).foldl
          (fun cd i => paethChannel (cd.length + 1) cd pdat n i 0 0) cur).getD j 0 =
        (((pdat.getD j 0 : Int) + (cd0.getD j 0 : Int)).emod 256).toNat := by
  intro m
  induction m with
  | zero =>
    intro k cur hk hlen h1 h2
    simp only [List.range', List.foldl_nil]
    exact ⟨hlen, fun j hj => h1 j (by omega)⟩
  | succ m ih =>
    intro k cur hk hlen h1 h2
    have hklt : k < cur.length := by omega
    have hstep : paethChannel (cur.length + 1) cur pdat n k 0 0 =
        cur.set k ((((pdat.getD k 0 : Int) + (cd0.getD k 0 : Int)).emod 256).toNat) := by
      rw [paethChannel_single cur pdat n k hklt (by omega), h2 k (le_refl k)]
    rw [List.range'_succ, List.foldl_cons, hstep]
    apply ih (k + 1)
    · omega
    · simp [List.length_set, hlen]
    · intro j hj
      rcases Nat.lt_succ_iff_lt_or_eq.mp hj with hj' | hj'
      · rw [List.getD_eq_getElem?_getD, List.getElem?_set_ne (by omega),
          ← List.getD_eq_getElem?_getD]
        exact h1 j hj'
      · subst hj'
        rw [List.getD_eq_getElem?_getD, List.getElem?_set_self (by omega)]
        rfl
    · intro j hj
      rw [List.getD_eq_getElem?_getD, List.getElem?_set_ne (by omega),
        ← List.getD_eq_getElem?_getD]
      exact h2 j (by omega)

theorem filterPaeth_full (cd pdat : List Nat) (n : Nat) (hc : cd.length = n)
    (hp : pdat.length = n) :
    filterPaeth cd pdat n =
      List.zipWith (fun (x b : Nat) => (((b : Int) + (x : Int)).emod 256).toNat) cd pdat := by
  have h := filterPaeth_fold_aux pdat cd n n 0 cd (by omega) hc
    (fun j hj => absurd hj (by omega)) (fun j _ => rfl)
  rw [filterPaeth, List.range_eq_range']
  apply List.ext_getElem
  · rw [h.1, List.length_zipWith, hc, hp]
    omega
  · intro i h1 h2
    have hi : i < n := by rw [h.1] at h1; exact h1
    have := h.2 i hi
    rw [List.getD_eq_getElem?_getD, List.getElem?_eq_getElem h1] at this
    simp only [Option.getD_some] at this
    rw [this, List.getElem_zipWith]
    rw [List.getD_eq_getElem?_getD, List.getD_eq_getElem?_getD,
      List.getElem?_eq_getElem (by omega : i < cd.length),
      List.getElem?_eq_getElem (by omega : i < pdat.length)]
    rfl

theorem upEncodeRowAux_length (xs : List Nat) :
    ∀ bs : List Nat, (upEncodeRowAux xs bs).length = xs.length := by
  induction xs with
  | nil => intro bs; rfl
  | cons x xs2 ih => intro bs; simp [upEncodeRowAux, ih]

theorem up_row_roundtrip (r : List Nat) :
    ∀ p : List Nat, r.length = p.length → (∀ x ∈ r, x < 256) →
      List.zipWith (fun (x b : Nat) => (((b : Int) + (x : Int)).emod 256).toNat)
        (upEncodeRowAux r p) p = r := by
  induction r with
  | nil => intro p _ _; rfl
  | cons x r2 ih =>
    intro p hlen hlt
    match p with
    | b :: p2 =>
      simp only [upEncodeRowAux, List.headD_cons, List.tail_cons, List.zipWith_cons_cons]
      refine List.cons_eq_cons.mpr ⟨?_, ?_⟩
      · have hx : x < 256 := hlt x (by simp)
        have hnn : (0 : Int) ≤ ((x : Int) - (b : Int)).emod 256 :=
          Int.emod_nonneg _ (by norm_num)
        rw [Int.toNat_of_nonneg hnn]
        show ((((b : Int) + ((x : Int) - (b : Int)) % 256)) % 256).toNat = x
        omega
      · exact ih p2 (by simpa using hlen) (fun y hy => hlt y (by simp [hy]))

theorem xrefStreamRowsAux_up (w : Nat) (hw : 1 ≤ w) (m : List (List Nat)) :
    ∀ (fuel : Nat) (prev : List Nat) (t : Nat),
      (∀ r ∈ m, r.length = w ∧ ∀ x ∈ r, x < 256) →
      prev.length = w →
      (upEncodeAux m prev).length < fuel →
      xrefStreamRowsAux fuel (upEncodeAux m prev) (t :: prev) (w + 1) true =
        .ok (m.map (fun r => r ++ [0])) := by
  induction m with
  | nil =>
    intro fuel prev t _ _ hfuel
    obtain ⟨f, rfl⟩ : ∃ f, fuel = f + 1 := ⟨fuel - 1, by omega⟩
    rw [xrefStreamRowsAux]
    simp [upEncodeAux]
  | cons r rest ih =>
    intro fuel prev t hm hp hfuel
    have hr : r.length = w := (hm r (by simp)).1
    have hrlt : ∀ x ∈ r, x < 256 := (hm r (by simp)).2
    have hrowlen : (2 :: upEncodeRowAux r prev).length = w + 1 := by
      simp [upEncodeRowAux_length, hr]
    have henc : upEncodeAux (r :: rest) prev =
        (2 :: upEncodeRowAux r prev) ++ upEncodeAux rest r := rfl
    obtain ⟨f, rfl⟩ : ∃ f, fuel = f + 1 := ⟨fuel - 1, by omega⟩
    rw [xrefStreamRowsAux, henc]
    rw [if_neg (by simp), if_neg (by rw [List.length_append, hrowlen]; omega)]
    have htake : ((2 :: upEncodeRowAux r prev) ++ upEncodeAux rest r).take (w + 1) =
        2 :: upEncodeRowAux r prev := by
      rw [← hrowlen]
      exact List.take_left _ _
    have hdrop : ((2 :: upEncodeRowAux r prev) ++ upEncodeAux rest r).drop (w + 1) =
        upEncodeAux rest r := by
      rw [← hrowlen]
      exact List.drop_left _ _
    have hrow2 : filterPaeth (((2 :: upEncodeRowAux r prev) ++
          upEncodeAux rest r).take (w + 1)) (t :: prev) (w + 1) =
        ((((t : Int) + (2 : Int)).emod 256).toNat) :: r := by
      rw [htake, filterPaeth_full _ _ _ hrowlen (by simp [hp])]
      rw [List.zipWith_cons_cons]
      rw [up_row_roundtrip r prev (by omega) hrlt]
      norm_cast
    simp only [hrow2, hdrop, if_true]
    rw [ih f r ((((t : Int) + (2 : Int)).emod 256).toNat)
      (fun q hq => hm q (by simp [hq])) hr
      (by rw [henc, List.length_append] at hfuel; omega)]
    rfl

/-- C5 amended: because `filterPaeth` is called with `bytesPerPixel`
equal to the whole row length, each channel chain has a single element,
the left and upper-left neighbours are always zero, and the predictor
degenerates to the byte above — the Up filter.  Hence any uniform-width
byte matrix encoded with the PNG Up filter (tag byte 2) is reproduced by
the xref-stream decoding path, each row with the tag stripped and a zero
pad byte appended. -/
theorem C5_amended_up_roundtrip (w : Nat) (m : List (List Nat)) (hw : 1 ≤ w)
    (hm : ∀ r ∈ m, r.length = w ∧ ∀ x ∈ r, x < 256) :
    xrefStreamRows (upEncode w m) (w + 1) true =
      .ok (m.map (fun r => r ++ [0])) := by
  rw [xrefStreamRows, upEncode]
  have : List.replicate (w + 1) 0 = 0 :: List.replicate w 0 := rfl
  rw [this]
  exact xrefStreamRowsAux_up w hw m _ (List.replicate w 0) 0 hm
    (by simp) (by omega)

theorem C5_amended_up_roundtrip_witness :
    (1 ≤ 2 ∧ (∀ r ∈ [[1, 2], [3, 4]], r.length = 2 ∧ ∀ x ∈ r, x < 256)) ∧
    xrefStreamRows (upEncode 2 [[1, 2], [3, 4]]) 3 true =
      .ok [[1, 2, 0], [3, 4, 0]] :=
  ⟨⟨by decide, by decide⟩, C5_amended_up_roundtrip 2 [[1, 2], [3, 4]] (by decide) (by decide)⟩

end TheoremsC5

section TheoremsC3
open reader

/-- C3 amended: the box fallback is a single step, not a chain.  A page
whose `/CropBox` and `/BleedBox` are both missing yields the page's
(empty) `/CropBox` map for a `/BleedBox` request — it does NOT fall
through to `/MediaBox`; a `/CropBox` request yields the `/MediaBox`
map; a `/MediaBox` request on a page with no media box is the hard
error. -/
theorem C3_one_step_fallback_amended (fuel : Nat) (ext : Ext)
    (rst rst2 : RState) (p numPages : Int)
    (pb : List (Int × List (String × List (String × ℚ))))
    (hnum : GetNumPages rst = .ok numPages)
    (hp : p ≤ numPages)
    (hrun : GetAllPageBoxes fuel ext rst 1 = .ok (pb, rst2))
    (hcrop : gofpdi.pbGet pb p "/CropBox" = [])
    (hbleed : gofpdi.pbGet pb p "/BleedBox" = []) :
    gofpdi.GetPDFBoxDimensions fuel ext rst p "/BleedBox" = .ok ([], rst2) ∧
    gofpdi.GetPDFBoxDimensions fuel ext rst p "/CropBox" =
      .ok (gofpdi.pbGet pb p "/MediaBox", rst2) ∧
    (gofpdi.pbGet pb p "/MediaBox" = [] →
      gofpdi.GetPDFBoxDimensions fuel ext rst p "/MediaBox" =
        .error "could not find the box dimensions for the image") := by
  refine ⟨?_, ?_, fun hm => ?_⟩
  · simp only [gofpdi.GetPDFBoxDimensions, hnum, hrun, hbleed, hcrop,
      if_neg (by omega : ¬(p > numPages))]
    simp
  · simp only [gofpdi.GetPDFBoxDimensions, hnum, hrun, hcrop,
      if_neg (by omega : ¬(p > numPages))]
    simp
  · simp only [gofpdi.GetPDFBoxDimensions, hnum, hrun, hm,
      if_neg (by omega : ¬(p > numPages))]
    simp

/-- C3 witness: the amended theorem applied to the concrete one-page
reader whose only box is `/MediaBox`. -/
theorem C3_one_step_fallback_amended_witness :
    (GetNumPages rstC3 = .ok 1 ∧ (1 : Int) ≤ 1 ∧
     GetAllPageBoxes 9 ext0 rstC3 1 = .ok (pbC3, rstC3out) ∧
     gofpdi.pbGet pbC3 1 "/CropBox" = [] ∧
     gofpdi.pbGet pbC3 1 "/BleedBox" = []) ∧
    gofpdi.GetPDFBoxDimensions 9 ext0 rstC3 1 "/BleedBox" =
      .ok ([], rstC3out) :=
  ⟨⟨rfl, le_refl 1, rfl, rfl, rfl⟩,
    (C3_one_step_fallback_amended 9 ext0 rstC3 rstC3out 1 1 pbC3 rfl
      (le_refl 1) rfl rfl rfl).1⟩

end TheoremsC3

section TheoremsC78
open reader

theorem resolveGo_spec (ext : Ext) :
    ∀ (fuel : Nat) (st : RState) (m : RMode) (res : PdfValue) (st2 : RState),
      resolveGo fuel ext st m = .ok (res, st2) →
      res.type ≠ PDFTypeObjRef ∧ st2.f.pos = st.f.pos := by
  intro fuel
  induction fuel with
  | zero =>
    intro st m res st2 h
    rw [resolveGo.eq_def] at h
    simp at h
  | succ fuel ih =>
    intro st m res st2 h
    rw [resolveGo.eq_def] at h
    dsimp only at h
    cases m with
    | obj objSpec =>
      dsimp only at h
      by_cases htype : objSpec.type ≠ PDFTypeObjRef
      · rw [if_pos htype] at h
        simp only [Except.ok.injEq, Prod.mk.injEq] at h
        obtain ⟨rfl, rfl⟩ := h
        exact ⟨htype, rfl⟩
      · rw [if_neg htype] at h
        split at h
        · exact ih st (.comp objSpec) res st2 h
        · repeat' split at h
          all_goals try (exact Except.noConfusion h)
          all_goals
            (injection h with h2
             injection h2 with ha hb
             subst ha
             subst hb
             refine ⟨by simp [mkStreamObject, mkObject, PdfValue.type,
               PDFTypeStream, PDFTypeObject, PDFTypeObjRef], rfl⟩)
    | comp objSpec =>
      dsimp only at h
      rcases hx : ilookup st.xrefStream objSpec.id with _ | ⟨objectID, objectIndex⟩
      · rw [hx] at h
        simp at h
      · rw [hx] at h
        dsimp only at h
        rcases hres : resolveGo fuel ext st (.obj (mkObjRef objectID 0 "")) with
          e | ⟨compressedObj, st3⟩
        · rw [hres] at h
          simp at h
        · rw [hres] at h
          dsimp only at h
          have hpos3 : st3.f.pos = st.f.pos := (ih st _ compressedObj st3 hres).2
          repeat' split at h
          all_goals try (exact Except.noConfusion h)
          all_goals
            (injection h with h2
             injection h2 with ha hb
             subst ha
             subst hb
             refine ⟨by simp [mkObject, PdfValue.type, PDFTypeObject,
               PDFTypeObjRef], ?_⟩)
          all_goals simpa using hpos3

/-- C7: resolution is idempotent — when `ResolveObject` succeeds, the
returned value never has the indirect-reference type, so resolving it a
second time (with any nonzero fuel) returns it unchanged along with the
same state. -/
theorem C7_resolution_idempotent (fuel fuel2 : Nat) (ext : Ext)
    (st : RState) (r res : PdfValue) (st2 : RState)
    (h : ResolveObject fuel ext st r = .ok (res, st2)) :
    ResolveObject (fuel2 + 1) ext st2 res = .ok (res, st2) := by
  have hspec := resolveGo_spec ext fuel st (.obj r) res st2 h
  rw [ResolveObject, resolveGo.eq_def]
  dsimp only
  rw [if_pos hspec.1]

/-- C7 witness: the theorem applied to the concrete one-object stream
`1 0 obj << /A 5 >> endobj`. -/
theorem C7_resolution_idempotent_witness :
    ResolveObject 20 ext0 rstC7 refC7 = .ok (valC7, stOutC7) ∧
    ResolveObject 20 ext0 stOutC7 valC7 = .ok (valC7, stOutC7) :=
  ⟨rfl, C7_resolution_idempotent 20 19 ext0 rstC7 refC7 valC7 stOutC7 rfl⟩

/-- C8: a successful `ResolveObject` restores the reader's byte-stream
position: the state it returns has the seek position the input state
had. -/
theorem C8_position_restored (fuel : Nat) (ext : Ext) (st : RState)
    (r res : PdfValue) (st2 : RState)
    (h : ResolveObject fuel ext st r = .ok (res, st2)) :
    st2.f.pos = st.f.pos :=
  (resolveGo_spec ext fuel st (.obj r) res st2 h).2

/-- C8 witness: the concrete run starts at position 7 and, after parsing
the whole object from position 0, returns with position 7 again. -/
theorem C8_position_restored_witness :
    ResolveObject 20 ext0 rstC7 refC7 = .ok (valC7, stOutC7) ∧
    stOutC7.f.pos = rstC7.f.pos ∧ rstC7.f.pos = 7 :=
  ⟨rfl, C8_position_restored 20 ext0 rstC7 refC7 valC7 stOutC7 rfl, rfl⟩

end TheoremsC78

section TheoremsC9
open reader

/-- C9: the importer's page cache is keyed by page number only.  After a
successful `ImportPage(p, box)` the returned template number is cached
for `p`, and any later call for page `p` — with any fuel, reader state
and box name (in particular a different box) — returns the same template
number and leaves the importer state (template map, cache and counter)
and the given reader state unchanged. -/
theorem C9_import_cache_by_page_number (fuel : Nat) (ext : Ext)
    (rst : RState) (imp : gofpdi.IState) (p : Int) (box : String) (t : Int)
    (rstO : RState) (impO : gofpdi.IState)
    (h : gofpdi.ImporterImportPage fuel ext rst imp p box = .ok (t, rstO, impO)) :
    ilookup impO.importedPages p = some t ∧
    ∀ (fuel2 : Nat) (ext2 : Ext) (rst2 : RState) (box2 : String),
      gofpdi.ImporterImportPage fuel2 ext2 rst2 impO p box2 =
        .ok (t, rst2, impO) := by
  have hcache : ilookup impO.importedPages p = some t := by
    rw [gofpdi.ImporterImportPage] at h
    split at h
    · injection h with h2
      injection h2 with ha hb
      injection hb with hb1 hb2
      subst ha
      subst hb2
      assumption
    · split at h
      · exact Except.noConfusion h
      · injection h with h2
        injection h2 with ha hb
        injection hb with hb1 hb2
        subst ha
        subst hb2
        simp [ilookup]
  refine ⟨hcache, fun fuel2 ext2 rst2 box2 => ?_⟩
  rw [gofpdi.ImporterImportPage, hcache]

/-- C9 witness: importing page 1 of the concrete one-page reader caches
template number 0; a second call with a different box name returns the
same number and changes nothing. -/
theorem C9_import_cache_by_page_number_witness :
    gofpdi.ImporterImportPage 9 ext0 rstC3 impC9fresh 1 "/MediaBox" =
      .ok (tC9, rstOutC9, impOutC9) ∧
    tC9 = 0 ∧
    ilookup impOutC9.importedPages 1 = some tC9 ∧
    gofpdi.ImporterImportPage 3 ext40 rstC3 impOutC9 1 "/CropBox" =
      .ok (tC9, rstC3, impOutC9) :=
  ⟨rfl, rfl,
    (C9_import_cache_by_page_number 9 ext0 rstC3 impC9fresh 1 "/MediaBox"
      tC9 rstOutC9 impOutC9 rfl).1,
    (C9_import_cache_by_page_number 9 ext0 rstC3 impC9fresh 1 "/MediaBox"
      tC9 rstOutC9 impOutC9 rfl).2 3 ext40 rstC3 "/CropBox"⟩

end TheoremsC9

section TheoremsC6

open reader

theorem old_drainPass_skip (fuel : Nat) (ext : Ext) (rst : RState) :
    ∀ (count1 count2 i : Nat) (b : Bool) (wst : gofpdiOld.WState),
    (∀ j : Nat, i ≤ j → j < i + count1 →
      gofpdiOld.ostackGet wst.objStack (j : Int) = none) →
    gofpdiOld.drainPass fuel ext i (count1 + count2) b rst wst =
      gofpdiOld.drainPass fuel ext (i + count1) count2 b rst wst := by
  intro count1
  induction count1 with
  | zero => intro count2 i b wst h; norm_num
  | succ n ih =>
    intro count2 i b wst h
    have e : n + 1 + count2 = (n + count2) + 1 := by omega
    rw [e]
    conv_lhs => rw [gofpdiOld.drainPass]
    rw [h i (le_refl i) (by omega)]
    have e2 : i + (n + 1) = (i + 1) + n := by omega
    rw [e2]
    exact ih count2 (i + 1) b wst (fun j hj1 hj2 => h j (by omega) (by omega))

theorem old_drainPass_append (fuel : Nat) (ext : Ext) :
    ∀ (c1 c2 i : Nat) (b : Bool) (rst : RState) (wst : gofpdiOld.WState),
      gofpdiOld.drainPass fuel ext i (c1 + c2) b rst wst =
        match gofpdiOld.drainPass fuel ext i c1 b rst wst with
        | .error e => .error e
        | .ok (b2, rst2, wst2) =>
          gofpdiOld.drainPass fuel ext (i + c1) c2 b2 rst2 wst2 := by
  intro c1
  induction c1 with
  | zero =>
    intro c2 i b rst wst
    conv_rhs =>
      rw [show gofpdiOld.drainPass fuel ext i 0 b rst wst =
        .ok (b, rst, wst) from rfl]
    norm_num
  | succ n ih =>
    intro c2 i b rst wst
    have e : n + 1 + c2 = (n + c2) + 1 := by omega
    rw [e]
    conv_lhs => rw [gofpdiOld.drainPass]
    conv_rhs => rw [gofpdiOld.drainPass]
    cases hov : gofpdiOld.ostackGet wst.objStack (i : Int) with
    | none =>
      dsimp only
      rw [ih c2 (i + 1) b rst wst,
        show i + (n + 1) = (i + 1) + n from by omega]
    | some v =>
      dsimp only
      cases hres : ResolveObject fuel ext rst v with
      | error e2 => rfl
      | ok pr =>
        obtain ⟨nObj, rst2⟩ := pr
        dsimp only
        rw [ih c2 (i + 1) true rst2 _,
          show i + (n + 1) = (i + 1) + n from by omega]

theorem hEmitC6 : gofpdiOld.emitTemplate 25 ext40 0 tplC6 wstInC6 =
    .ok (entryC6, wstEmitC6) := rfl

theorem hStepC6 : gofpdiOld.drainPass 24 ext40 7 1 false rstC6 wstEmitC6 =
    .ok (true, rstStepC6, wstStepC6) := rfl

theorem missEmitC6 : ∀ j : Nat, (j : Int) ≠ 7 →
    gofpdiOld.ostackGet wstEmitC6.objStack (j : Int) = none := by
  intro j hj
  have h7 : ¬((7 : Int) = (j : Int)) := fun h => hj h.symm
  rw [show wstEmitC6.objStack = [(7, some (mkObjRefNew 7 0 2))] from rfl]
  simp [gofpdiOld.ostackGet, ilookup, h7]

theorem missStepC6 : ∀ j : Nat,
    gofpdiOld.ostackGet wstStepC6.objStack (j : Int) = none := by
  intro j
  rw [show wstStepC6.objStack =
    [(7, none), (7, some (mkObjRefNew 7 0 2))] from rfl]
  by_cases hj : (7 : Int) = (j : Int)
  · simp [gofpdiOld.ostackGet, ilookup, hj]
  · simp [gofpdiOld.ostackGet, ilookup, hj]

theorem runC6 : gofpdiOld.PutFormXobjectsUnordered 25 ext40 rstC6 wstC6 =
    .ok (resOutC6, rstStepC6, wstStepC6) := by
  have hDrain1 : gofpdiOld.drainPass 24 ext40 0 9999 false rstC6 wstEmitC6 =
      .ok (true, rstStepC6, wstStepC6) := by
    rw [show (9999 : Nat) = 7 + 9992 from rfl,
      old_drainPass_skip 24 ext40 rstC6 7 9992 0 false wstEmitC6
        (fun j _ hj => missEmitC6 j (by omega))]
    rw [show (9992 : Nat) = 1 + 9991 from rfl,
      old_drainPass_append 24 ext40 1 9991 (0 + 7) false rstC6 wstEmitC6]
    rw [show (0 + 7 : Nat) = 7 from rfl, hStepC6]
    dsimp only
    rw [show (7 + 1 : Nat) = 8 from rfl,
      show (9991 : Nat) = 9991 + 0 from rfl,
      old_drainPass_skip 24 ext40 rstStepC6 9991 0 8 true wstStepC6
        (fun j _ _ => missStepC6 j)]
    rfl
  have hDrain2 : gofpdiOld.drainPass 23 ext40 0 9999 false rstStepC6 wstStepC6 =
      .ok (false, rstStepC6, wstStepC6) := by
    rw [show (9999 : Nat) = 9999 + 0 from rfl,
      old_drainPass_skip 23 ext40 rstStepC6 9999 0 0 false wstStepC6
        (fun j _ _ => missStepC6 j)]
    rfl
  have hPut : gofpdiOld.putImportedObjects 25 ext40 rstC6 wstEmitC6 =
      .ok (rstStepC6, wstStepC6) := by
    rw [gofpdiOld.putImportedObjects, hDrain1]
    dsimp only
    rw [if_pos rfl, gofpdiOld.putImportedObjects, hDrain2]
    dsimp only
    rw [if_neg Bool.false_ne_true]
  have hLoop : gofpdiOld.PutFormXobjects 25 ext40 rstC6
      (gofpdiOld.SetUseHash true wstC6) =
      .ok ([entryC6], rstStepC6, wstStepC6) := by
    show gofpdiOld.putTplLoop 25 ext40 wstInC6.tpls 0 rstC6 wstInC6 [] = _
    rw [show wstInC6.tpls = [some tplC6] from rfl, gofpdiOld.putTplLoop, hEmitC6]
    dsimp only
    rw [hPut]
    rfl
  rw [gofpdiOld.PutFormXobjectsUnordered, hLoop]
  rfl

theorem sliceOk_append (buf t : List Char) (pos : Nat) (sha : String)
    (h : SliceOk buf pos sha) : SliceOk (buf ++ t) pos sha := by
  obtain ⟨hlen, htake⟩ := h
  refine ⟨hlen, ?_⟩
  have hlen2 : 40 ≤ (buf.drop pos).length := by
    have hc := congrArg List.length htake
    rw [List.length_take] at hc
    have hs : sha.toList.length = 40 := by
      rw [show sha.toList.length = sha.length from rfl, hlen]
    omega
  have hpos : pos ≤ buf.length := by
    rw [List.length_drop] at hlen2
    omega
  rw [List.drop_append_eq_append_drop, Nat.sub_eq_zero_of_le hpos,
    List.drop_zero, List.take_append_of_le_length hlen2, htake]

theorem posUpdate_mem (ser pos : Nat) (sha : String) :
    ∀ (l : List (Nat × List (Nat × String)))
      (e : Nat × List (Nat × String)),
      e ∈ gofpdiOld.posUpdate l ser pos sha →
      ∃ pm0, (e.1, pm0) ∈ l ∧
        (e.2 = pm0 ∨ (e.1 = ser ∧ e.2 = (pos, sha) :: pm0)) := by
  intro l
  induction l with
  | nil => intro e h; simp [gofpdiOld.posUpdate] at h
  | cons hd tl ih =>
    intro e h
    obtain ⟨s2, pm⟩ := hd
    rw [gofpdiOld.posUpdate] at h
    split at h
    · rename_i hs2
      rcases List.mem_cons.mp h with h1 | h1
      · subst h1
        exact ⟨pm, List.mem_cons_self _ _, Or.inr ⟨hs2, rfl⟩⟩
      · exact ⟨e.2, List.mem_cons_of_mem _ h1, Or.inl rfl⟩
    · rcases List.mem_cons.mp h with h1 | h1
      · subst h1
        exact ⟨pm, List.mem_cons_self _ _, Or.inl rfl⟩
      · obtain ⟨pm0, hmem, hor⟩ := ih e h1
        exact ⟨pm0, List.mem_cons_of_mem _ hmem, hor⟩

theorem inv_straightOut (s : String) (st : gofpdiOld.WState)
    (h : InvBase st) : InvBase (gofpdiOld.straightOut s st) := by
  obtain ⟨hA, hB, hC, hD⟩ := h
  refine ⟨hA, hB, hC, ?_⟩
  intro e he ps hps
  refine ⟨fun hser => ?_, fun ob hob hid => (hD e he ps hps).2 ob hob hid⟩
  exact sliceOk_append _ _ _ _ ((hD e he ps hps).1 hser)

theorem inv_out (s : String) (st : gofpdiOld.WState)
    (h : InvBase st) : InvBase (gofpdiOld.out s st) := by
  obtain ⟨hA, hB, hC, hD⟩ := h
  refine ⟨hA, hB, hC, ?_⟩
  intro e he ps hps
  refine ⟨fun hser => ?_, fun ob hob hid => (hD e he ps hps).2 ob hob hid⟩
  have := sliceOk_append _ (s.toList ++ ['\n']) _ _ ((hD e he ps hps).1 hser)
  rw [← List.append_assoc] at this
  exact this

theorem pd_newObjTrue (ext : Ext) (objID : Int) (st : gofpdiOld.WState)
    (h : InvBase st ∧ Dfresh st ∧ st.useHash = true) :
    InvBase (gofpdiOld.newObj ext objID true st) ∧
    Dfresh (gofpdiOld.newObj ext objID true st) ∧
    (gofpdiOld.newObj ext objID true st).useHash = true := by
  rw [gofpdiOld.newObj, if_pos (rfl : true = true)]
  split_ifs <;> exact ⟨h.1, h.2.1, h.2.2⟩

theorem pd_newObjFalse (ext : Ext) (objID : Int) (st : gofpdiOld.WState)
    (h : InvBase st) (hu : st.useHash = true) :
    InvBase (gofpdiOld.newObj ext objID false st) ∧
    Dfresh (gofpdiOld.newObj ext objID false st) ∧
    (gofpdiOld.newObj ext objID false st).useHash = true := by
  have key : ∀ (st1 : gofpdiOld.WState) (oid : Int), InvBase st1 →
      st1.useHash = true →
      InvBase { st1 with
        currentObjID := oid,
        currentObj := ⟨st1.objSerial, ⟨oid, gofpdiOld.shaOfInt ext st1 oid⟩, []⟩,
        objSerial := st1.objSerial + 1,
        writtenObjPos := (st1.objSerial, []) :: st1.writtenObjPos } ∧
      Dfresh { st1 with
        currentObjID := oid,
        currentObj := ⟨st1.objSerial, ⟨oid, gofpdiOld.shaOfInt ext st1 oid⟩, []⟩,
        objSerial := st1.objSerial + 1,
        writtenObjPos := (st1.objSerial, []) :: st1.writtenObjPos } ∧
      ({ st1 with
        currentObjID := oid,
        currentObj := ⟨st1.objSerial, ⟨oid, gofpdiOld.shaOfInt ext st1 oid⟩, []⟩,
        objSerial := st1.objSerial + 1,
        writtenObjPos := (st1.objSerial, []) ::
          st1.writtenObjPos } : gofpdiOld.WState).useHash = true := by
    intro st1 oid h1 hu1
    obtain ⟨hA, hB, hC, hD⟩ := h1
    refine ⟨⟨?_, Nat.lt_succ_self _, ?_, ?_⟩, ?_, hu1⟩
    · intro e he
      rcases List.mem_cons.mp he with h2 | h2
      · subst h2; exact Nat.lt_succ_self _
      · exact Nat.lt_succ_of_lt (hA e h2)
    · intro ob hob
      exact Nat.lt_succ_of_lt (hC ob hob)
    · intro e he ps hps
      rcases List.mem_cons.mp he with h2 | h2
      · exfalso
        rw [h2] at hps
        simp at hps
      · refine ⟨fun hser => ?_, fun ob hob hid => (hD e h2 ps hps).2 ob hob hid⟩
        dsimp only at hser
        exact absurd hser (by have := hA e h2; omega)
    · intro ob hob
      dsimp only
      have := hC ob hob
      omega
  rw [gofpdiOld.newObj, if_neg Bool.false_ne_true]
  split_ifs with h1
  · exact key _ _ h hu
  · exact key _ _ h hu

theorem pd_outObjRef (ext : Ext) (objID : Int) (st : gofpdiOld.WState)
    (hsha : ∀ s, (ext.sha1hex s).length = 40)
    (hbase : InvBase st) (hd : Dfresh st) (hu : st.useHash = true) :
    InvBase (gofpdiOld.outObjRef ext objID st) ∧
    Dfresh (gofpdiOld.outObjRef ext objID st) ∧
    (gofpdiOld.outObjRef ext objID st).useHash = true := by
  obtain ⟨hA, hB, hC, hD⟩ := hbase
  rw [gofpdiOld.outObjRef]
  dsimp only
  rw [hu, if_pos rfl]
  refine ⟨⟨?_, hB, hC, ?_⟩, hd, rfl⟩
  · intro e he
    obtain ⟨pm0, hmem, _⟩ := posUpdate_mem _ _ _ _ e he
    exact hA (e.1, pm0) hmem
  · intro e he ps hps
    obtain ⟨pm0, hmem, hor⟩ := posUpdate_mem _ _ _ _ e he
    rcases hor with hsame | ⟨hser, hcons⟩
    · rw [hsame] at hps
      refine ⟨fun hcur => ?_, fun ob hob hid => (hD (e.1, pm0) hmem ps hps).2 ob hob hid⟩
      have := (hD (e.1, pm0) hmem ps hps).1 hcur
      exact sliceOk_append _ _ _ _ (sliceOk_append _ _ _ _ this)
    · rw [hcons] at hps
      rcases List.mem_cons.mp hps with h2 | h2
      · subst h2
        refine ⟨fun _ => ?_, fun ob hob hid => absurd (hid.trans hser) (hd ob hob)⟩
        have hlen40 : (gofpdiOld.shaOfInt ext st objID).toList.length = 40 :=
          hsha (toString objID ++ "-" ++ st.rSourceFile)
        refine ⟨hsha (toString objID ++ "-" ++ st.rSourceFile), ?_⟩
        rw [List.append_assoc, List.drop_left,
          List.take_append_of_le_length (le_of_eq hlen40.symm),
          List.take_of_length_le (le_of_eq hlen40)]
      · refine ⟨fun hcur => ?_, fun ob hob hid => (hD (e.1, pm0) hmem ps h2).2 ob hob hid⟩
        have := (hD (e.1, pm0) hmem ps h2).1 hcur
        exact sliceOk_append _ _ _ _ (sliceOk_append _ _ _ _ this)

theorem invH_endObj (st : gofpdiOld.WState) (hbase : InvBase st) :
    InvBase (gofpdiOld.endObj st) ∧
    (gofpdiOld.endObj st).useHash = st.useHash := by
  have h1 := inv_out "endobj" st hbase
  obtain ⟨hA, hB, hC, hD⟩ := h1
  rw [gofpdiOld.endObj]
  dsimp only
  refine ⟨⟨hA, hB, ?_, ?_⟩, rfl⟩
  · intro ob hob
    rcases List.mem_cons.mp hob with h2 | h2
    · subst h2; exact hB
    · exact hC ob h2
  · intro e he ps hps
    refine ⟨fun hcur => (hD e he ps hps).1 hcur, fun ob hob hid => ?_⟩
    rcases List.mem_cons.mp hob with h2 | h2
    · subst h2
      exact (hD e he ps hps).1 hid.symm
    · exact (hD e he ps hps).2 ob h2 hid

theorem foldl_pres {α σ : Type} (P : σ → Prop) (f : σ → α → σ)
    (hf : ∀ s a, P s → P (f s a)) :
    ∀ (l : List α) (s : σ), P s → P (l.foldl f s) := by
  intro l
  induction l with
  | nil => intro s hs; exact hs
  | cons a l2 ih => intro s hs; exact ih _ (hf s a hs)

theorem pd_writeValue (ext : Ext)
    (hsha : ∀ s, (ext.sha1hex s).length = 40) :
    ∀ (fuel : Nat) (v : PdfValue) (st : gofpdiOld.WState),
      InvBase st → Dfresh st → st.useHash = true →
      InvBase (gofpdiOld.writeValue fuel ext st v) ∧
      Dfresh (gofpdiOld.writeValue fuel ext st v) ∧
      (gofpdiOld.writeValue fuel ext st v).useHash = true := by
  intro fuel
  induction fuel with
  | zero => intro v st h1 h2 h3; exact ⟨h1, h2, h3⟩
  | succ fuel ih =>
    intro v st h1 h2 h3
    rw [gofpdiOld.writeValue]
    by_cases c1 : v.type = PDFTypeToken
    · rw [if_pos c1]; exact ⟨inv_straightOut _ _ h1, h2, h3⟩
    rw [if_neg c1]
    by_cases c2 : v.type = PDFTypeNumeric
    · rw [if_pos c2]; exact ⟨inv_straightOut _ _ h1, h2, h3⟩
    rw [if_neg c2]
    by_cases c3 : v.type = PDFTypeReal
    · rw [if_pos c3]; exact ⟨inv_straightOut _ _ h1, h2, h3⟩
    rw [if_neg c3]
    by_cases c4 : v.type = PDFTypeArray
    · rw [if_pos c4]
      have hP2 := foldl_pres
        (fun s => InvBase s ∧ Dfresh s ∧ s.useHash = true)
        (fun st c => gofpdiOld.writeValue fuel ext st c)
        (fun s a hs => ih a s hs.1 hs.2.1 hs.2.2) v.array
        (gofpdiOld.straightOut "[" st) ⟨inv_straightOut _ _ h1, h2, h3⟩
      exact ⟨inv_out _ _ hP2.1, hP2.2.1, hP2.2.2⟩
    rw [if_neg c4]
    by_cases c5 : v.type = PDFTypeDictionary
    · rw [if_pos c5]
      have hP2 := foldl_pres
        (fun s => InvBase s ∧ Dfresh s ∧ s.useHash = true)
        (fun st kv => gofpdiOld.writeValue fuel ext
          (gofpdiOld.straightOut (kv.1 ++ " ") st) kv.2)
        (fun s a hs => ih a.2 _ (inv_straightOut _ _ hs.1) hs.2.1 hs.2.2)
        v.dictionary (gofpdiOld.straightOut "<<" st)
        ⟨inv_straightOut _ _ h1, h2, h3⟩
      exact ⟨inv_straightOut _ _ hP2.1, hP2.2.1, hP2.2.2⟩
    rw [if_neg c5]
    by_cases c6 : v.type = PDFTypeObjRef
    · rw [if_pos c6]
      have key : ∀ st1 : gofpdiOld.WState,
          InvBase st1 → Dfresh st1 → st1.useHash = true →
          InvBase (gofpdiOld.outObjRef ext
            (((gofpdiOld.ostackGet st1.doOobjStack v.id).map
              PdfValue.newID).getD 0) st1) ∧
          Dfresh (gofpdiOld.outObjRef ext
            (((gofpdiOld.ostackGet st1.doOobjStack v.id).map
              PdfValue.newID).getD 0) st1) ∧
          (gofpdiOld.outObjRef ext
            (((gofpdiOld.ostackGet st1.doOobjStack v.id).map
              PdfValue.newID).getD 0) st1).useHash = true :=
        fun st1 a b c => pd_outObjRef ext _ st1 hsha a b c
      refine key _ ?_ ?_ ?_ <;>
        ( by_cases c12 : (ilookup st.doOobjStack v.id).isNone = true
          case pos =>
            rw [if_pos c12]
            first
            | exact (pd_newObjTrue ext (-1) st ⟨h1, h2, h3⟩).1
            | exact (pd_newObjTrue ext (-1) st ⟨h1, h2, h3⟩).2.1
            | exact (pd_newObjTrue ext (-1) st ⟨h1, h2, h3⟩).2.2
          case neg =>
            rw [if_neg c12]
            first | exact h1 | exact h2 | exact h3 )
    rw [if_neg c6]
    by_cases c7 : v.type = PDFTypeString
    · rw [if_pos c7]; exact ⟨inv_straightOut _ _ h1, h2, h3⟩
    rw [if_neg c7]
    by_cases c8 : v.type = PDFTypeStream
    · rw [if_pos c8]
      have hP1 := ih (v.value.getD zeroValue) st h1 h2 h3
      exact ⟨inv_out _ _ (inv_out _ _ (inv_out _ _ hP1.1)), hP1.2.1, hP1.2.2⟩
    rw [if_neg c8]
    by_cases c9 : v.type = PDFTypeHex
    · rw [if_pos c9]; exact ⟨inv_straightOut _ _ h1, h2, h3⟩
    rw [if_neg c9]
    by_cases c10 : v.type = PDFTypeBoolean
    · rw [if_pos c10]
      by_cases c12 : v.bool = true
      · rw [if_pos c12]; exact ⟨inv_straightOut _ _ h1, h2, h3⟩
      · rw [if_neg c12]; exact ⟨inv_straightOut _ _ h1, h2, h3⟩
    rw [if_neg c10]
    by_cases c11 : v.type = PDFTypeNull
    · rw [if_pos c11]; exact ⟨inv_straightOut _ _ h1, h2, h3⟩
    rw [if_neg c11]
    exact ⟨h1, h2, h3⟩

theorem pd3_out (s : String) (st : gofpdiOld.WState)
    (h : InvBase st ∧ Dfresh st ∧ st.useHash = true) :
    InvBase (gofpdiOld.out s st) ∧ Dfresh (gofpdiOld.out s st) ∧
    (gofpdiOld.out s st).useHash = true :=
  ⟨inv_out _ _ h.1, h.2.1, h.2.2⟩

theorem pd3_ite (c : Prop) [Decidable c] (s : String) (st : gofpdiOld.WState)
    (h : InvBase st ∧ Dfresh st ∧ st.useHash = true) :
    InvBase (if c then gofpdiOld.out s st else st) ∧
    Dfresh (if c then gofpdiOld.out s st else st) ∧
    (if c then gofpdiOld.out s st else st).useHash = true := by
  split_ifs with hc
  · exact pd3_out s st h
  · exact h

theorem pd3_frame (st : gofpdiOld.WState) (rs : String) (kk : ℚ)
    (tp : List (Option gofpdiOld.PdfTemplate)) (nn : Int)
    (os dos : List (Int × Option PdfValue)) (coid tid : Int)
    (h : InvBase st ∧ Dfresh st ∧ st.useHash = true) :
    InvBase ⟨rs, kk, tp, nn, os, dos, st.writtenObjs, st.writtenObjPos,
      st.currentObj, coid, st.objSerial, tid, st.useHash⟩ ∧
    Dfresh ⟨rs, kk, tp, nn, os, dos, st.writtenObjs, st.writtenObjPos,
      st.currentObj, coid, st.objSerial, tid, st.useHash⟩ ∧
    (⟨rs, kk, tp, nn, os, dos, st.writtenObjs, st.writtenObjPos,
      st.currentObj, coid, st.objSerial, tid,
      st.useHash⟩ : gofpdiOld.WState).useHash = true :=
  ⟨h.1, h.2.1, h.2.2⟩

theorem ih_frame (st : gofpdiOld.WState) (rs : String) (kk : ℚ)
    (tp : List (Option gofpdiOld.PdfTemplate)) (nn : Int)
    (os dos : List (Int × Option PdfValue)) (coid tid : Int)
    (h : InvBase st ∧ st.useHash = true) :
    InvBase ⟨rs, kk, tp, nn, os, dos, st.writtenObjs, st.writtenObjPos,
      st.currentObj, coid, st.objSerial, tid, st.useHash⟩ ∧
    (⟨rs, kk, tp, nn, os, dos, st.writtenObjs, st.writtenObjPos,
      st.currentObj, coid, st.objSerial, tid,
      st.useHash⟩ : gofpdiOld.WState).useHash = true :=
  ⟨h.1, h.2⟩

theorem ihp_endObj (st : gofpdiOld.WState)
    (h : InvBase st ∧ st.useHash = true) :
    InvBase (gofpdiOld.endObj st) ∧
    (gofpdiOld.endObj st).useHash = true :=
  ⟨(invH_endObj st h.1).1, (invH_endObj st h.1).2.trans h.2⟩

theorem invH_emitTemplate (ext : Ext)
    (hsha : ∀ s, (ext.sha1hex s).length = 40)
    (fuel : Nat) (i : Nat) (tpl : gofpdiOld.PdfTemplate)
    (wst : gofpdiOld.WState)
    (entry : String × gofpdiOld.PdfObjectID) (wst2 : gofpdiOld.WState)
    (h1 : InvBase wst) (h2 : wst.useHash = true)
    (h : gofpdiOld.emitTemplate fuel ext i tpl wst = .ok (entry, wst2)) :
    InvBase wst2 ∧ wst2.useHash = true := by
  rw [gofpdiOld.emitTemplate] at h
  dsimp only at h
  cases hre : tpl.resources with
  | none =>
    rw [hre] at h
    exact Except.noConfusion h
  | some res =>
    rw [hre] at h
    dsimp only at h
    injection h with h'
    injection h' with ha hb
    subst hb
    exact ih_frame _ _ _ _ _ _ _ _ _ (ihp_endObj _
      (let t5 := pd3_out _ _ (pd3_out _ _ (pd3_out _ _ (pd3_out _ _
        (pd3_frame _ _ _ _ _ _ _ _ _
          (pd_writeValue ext hsha fuel res _
            (pd3_out _ _ (pd3_ite _ _ _ (pd3_out _ _ (pd3_out _ _
              (pd3_out _ _ (pd3_out _ _ (pd3_frame _ _ _ _ _ _ _ _ _
                (pd_newObjFalse ext (-1) wst h1 h2)))))))).1
            (pd3_out _ _ (pd3_ite _ _ _ (pd3_out _ _ (pd3_out _ _
              (pd3_out _ _ (pd3_out _ _ (pd3_frame _ _ _ _ _ _ _ _ _
                (pd_newObjFalse ext (-1) wst h1 h2)))))))).2.1
            (pd3_out _ _ (pd3_ite _ _ _ (pd3_out _ _ (pd3_out _ _
              (pd3_out _ _ (pd3_out _ _ (pd3_frame _ _ _ _ _ _ _ _ _
                (pd_newObjFalse ext (-1) wst h1 h2)))))))).2.2)))))
      ⟨t5.1, t5.2.2⟩))

theorem pd3_iteWV (ext : Ext) (hsha : ∀ s, (ext.sha1hex s).length = 40)
    (c : Prop) [Decidable c] (fuel : Nat) (v1 v2 : PdfValue)
    (st : gofpdiOld.WState)
    (h : InvBase st ∧ Dfresh st ∧ st.useHash = true) :
    InvBase (if c then gofpdiOld.writeValue fuel ext st v1
      else gofpdiOld.writeValue fuel ext st v2) ∧
    Dfresh (if c then gofpdiOld.writeValue fuel ext st v1
      else gofpdiOld.writeValue fuel ext st v2) ∧
    (if c then gofpdiOld.writeValue fuel ext st v1
      else gofpdiOld.writeValue fuel ext st v2).useHash = true := by
  split_ifs with hc
  · exact pd_writeValue ext hsha fuel v1 st h.1 h.2.1 h.2.2
  · exact pd_writeValue ext hsha fuel v2 st h.1 h.2.1 h.2.2

theorem invH_drainPass (ext : Ext)
    (hsha : ∀ s, (ext.sha1hex s).length = 40) (fuel : Nat) :
    ∀ (count i : Nat) (b : Bool) (rst : RState) (wst : gofpdiOld.WState)
      (b2 : Bool) (rst2 : RState) (wst2 : gofpdiOld.WState),
      InvBase wst → wst.useHash = true →
      gofpdiOld.drainPass fuel ext i count b rst wst = .ok (b2, rst2, wst2) →
      InvBase wst2 ∧ wst2.useHash = true := by
  intro count
  induction count with
  | zero =>
    intro i b rst wst b2 rst2 wst2 hI hu h
    rw [gofpdiOld.drainPass] at h
    injection h with h'
    injection h' with ha hb
    injection hb with hb1 hb2
    subst hb2
    exact ⟨hI, hu⟩
  | succ n ih =>
    intro i b rst wst b2 rst2 wst2 hI hu h
    rw [gofpdiOld.drainPass] at h
    cases hov : gofpdiOld.ostackGet wst.objStack (i : Int) with
    | none =>
      rw [hov] at h
      exact ih (i + 1) b rst wst b2 rst2 wst2 hI hu h
    | some v =>
      rw [hov] at h
      dsimp only at h
      cases hres : ResolveObject fuel ext rst v with
      | error e2 =>
        rw [hres] at h
        exact Except.noConfusion h
      | ok pr =>
        obtain ⟨nObj, rstM⟩ := pr
        rw [hres] at h
        dsimp only at h
        exact ih (i + 1) true rstM _ b2 rst2 wst2
          (ih_frame _ _ _ _ _ _ _ _ _ (ihp_endObj _
            (let t := pd3_iteWV ext hsha (nObj.type = PDFTypeStream) fuel nObj
                (nObj.value.getD zeroValue) _
                (pd_newObjFalse ext v.newID wst hI hu)
             ⟨t.1, t.2.2⟩))).1
          (ih_frame _ _ _ _ _ _ _ _ _ (ihp_endObj _
            (let t := pd3_iteWV ext hsha (nObj.type = PDFTypeStream) fuel nObj
                (nObj.value.getD zeroValue) _
                (pd_newObjFalse ext v.newID wst hI hu)
             ⟨t.1, t.2.2⟩))).2 h

theorem invH_putImportedObjects (ext : Ext)
    (hsha : ∀ s, (ext.sha1hex s).length = 40) :
    ∀ (fuel : Nat) (rst : RState) (wst : gofpdiOld.WState)
      (rst2 : RState) (wst2 : gofpdiOld.WState),
      InvBase wst → wst.useHash = true →
      gofpdiOld.putImportedObjects fuel ext rst wst = .ok (rst2, wst2) →
      InvBase wst2 ∧ wst2.useHash = true := by
  intro fuel
  induction fuel with
  | zero =>
    intro rst wst rst2 wst2 hI hu h
    rw [gofpdiOld.putImportedObjects] at h
    exact Except.noConfusion h
  | succ fuel ih =>
    intro rst wst rst2 wst2 hI hu h
    rw [gofpdiOld.putImportedObjects] at h
    cases hd : gofpdiOld.drainPass fuel ext 0 9999 false rst wst with
    | error e =>
      rw [hd] at h
      exact Except.noConfusion h
    | ok pr =>
      obtain ⟨b2, rM, wM⟩ := pr
      rw [hd] at h
      dsimp only at h
      have hw := invH_drainPass ext hsha fuel 9999 0 false rst wst b2 rM wM hI hu hd
      cases b2 with
      | false =>
        rw [if_neg Bool.false_ne_true] at h
        injection h with h'
        injection h' with ha hb
        subst hb
        exact hw
      | true =>
        rw [if_pos rfl] at h
        exact ih rM wM rst2 wst2 hw.1 hw.2 h

theorem invH_putTplLoop (ext : Ext)
    (hsha : ∀ s, (ext.sha1hex s).length = 40) :
    ∀ (tpls : List (Option gofpdiOld.PdfTemplate)) (fuel i : Nat)
      (rst : RState) (wst : gofpdiOld.WState)
      (result res2 : List (String × gofpdiOld.PdfObjectID))
      (rst2 : RState) (wst2 : gofpdiOld.WState),
      InvBase wst → wst.useHash = true →
      gofpdiOld.putTplLoop fuel ext tpls i rst wst result =
        .ok (res2, rst2, wst2) →
      InvBase wst2 ∧ wst2.useHash = true := by
  intro tpls
  induction tpls with
  | nil =>
    intro fuel i rst wst result res2 rst2 wst2 hI hu h
    rw [gofpdiOld.putTplLoop] at h
    injection h with h'
    injection h' with ha hb
    injection hb with hb1 hb2
    subst hb2
    exact ⟨hI, hu⟩
  | cons hd tl ih =>
    intro fuel i rst wst result res2 rst2 wst2 hI hu h
    cases hd with
    | none =>
      rw [gofpdiOld.putTplLoop] at h
      exact Except.noConfusion h
    | some tpl =>
      rw [gofpdiOld.putTplLoop] at h
      cases he : gofpdiOld.emitTemplate fuel ext i tpl wst with
      | error e =>
        rw [he] at h
        exact Except.noConfusion h
      | ok pr =>
        obtain ⟨entry, wE⟩ := pr
        rw [he] at h
        dsimp only at h
        have hwE := invH_emitTemplate ext hsha fuel i tpl wst entry wE hI hu he
        cases hp : gofpdiOld.putImportedObjects fuel ext rst wE with
        | error e =>
          rw [hp] at h
          exact Except.noConfusion h
        | ok pr2 =>
          obtain ⟨rP, wP⟩ := pr2
          rw [hp] at h
          dsimp only at h
          have hwP := invH_putImportedObjects ext hsha fuel rst wE rP wP
            hwE.1 hwE.2 hp
          exact ih fuel (i + 1) rP wP _ res2 rst2 wst2 hwP.1 hwP.2 h

/-- C6: hash-position fidelity.  Starting from any structurally sound
writer state, a successful `PutFormXobjectsUnordered` run (hash mode)
yields a state in which every `(offset, referent-hash)` tuple of the
hash-position map, for every emitted object with the matching identity,
points at exactly the forty buffer bytes that spell the referent hash
(the hash function is assumed to produce forty-character strings). -/
theorem C6_hash_position_fidelity (fuel : Nat) (ext : Ext)
    (hsha : ∀ s, (ext.sha1hex s).length = 40)
    (rst : RState) (wst : gofpdiOld.WState) (hbase : InvBase wst)
    (res : List (String × String)) (rst2 : RState)
    (wst2 : gofpdiOld.WState)
    (hrun : gofpdiOld.PutFormXobjectsUnordered fuel ext rst wst =
      .ok (res, rst2, wst2)) :
    ∀ e ∈ gofpdiOld.GetImportedObjHashPos wst2, ∀ ps ∈ e.2,
      ∀ ob ∈ wst2.writtenObjs, ob.1 = e.1 → SliceOk ob.2.2 ps.1 ps.2 := by
  rw [gofpdiOld.PutFormXobjectsUnordered] at hrun
  cases hp : gofpdiOld.PutFormXobjects fuel ext rst
      (gofpdiOld.SetUseHash true wst) with
  | error e =>
    rw [hp] at hrun
    exact Except.noConfusion hrun
  | ok pr =>
    obtain ⟨t, r2, w2⟩ := pr
    rw [hp] at hrun
    dsimp only at hrun
    injection hrun with h'
    injection h' with ha hb
    injection hb with hb1 hb2
    subst hb2
    rw [gofpdiOld.PutFormXobjects] at hp
    dsimp only at hp
    have hinv := invH_putTplLoop ext hsha
      ({ gofpdiOld.SetUseHash true wst with
          rSourceFile := rst.sourceFile }).tpls fuel 0 rst
      { gofpdiOld.SetUseHash true wst with rSourceFile := rst.sourceFile }
      [] t r2 w2 hbase rfl hp
    intro e he ps hps ob hob hid
    exact ((hinv.1.2.2.2) e he ps hps).2 ob hob hid

/-- C6 witness: the invariant instantiated on the concrete hash-mode
run: the emitted template (pointer serial 1) records the reference to
the drained object at byte offset 150, and the forty buffer bytes there
are the referent's hash. -/
theorem C6_hash_position_fidelity_witness :
    ((∀ s, (ext40.sha1hex s).length = 40) ∧ InvBase wstC6 ∧
     gofpdiOld.PutFormXobjectsUnordered 25 ext40 rstC6 wstC6 =
       .ok (resOutC6, rstStepC6, wstStepC6) ∧
     gofpdiOld.GetImportedObjHashPos wstStepC6 =
       [(2, []), (1, [(150, "aaaaaaaaaaaaaaaaaaaaaaaaaaaaaaaaaaaaaaaa")])]) ∧
    (∀ e ∈ gofpdiOld.GetImportedObjHashPos wstStepC6, ∀ ps ∈ e.2,
      ∀ ob ∈ wstStepC6.writtenObjs, ob.1 = e.1 →
        SliceOk ob.2.2 ps.1 ps.2) := by
  have hbase : InvBase wstC6 := by
    refine ⟨?_, ?_, ?_, ?_⟩
    · intro e he
      simp [wstC6, gofpdiOld.initWriter] at he
    · decide
    · intro ob hob
      simp [wstC6, gofpdiOld.initWriter] at hob
    · intro e he
      simp [wstC6, gofpdiOld.initWriter] at he
  exact ⟨⟨fun s => rfl, hbase, runC6, rfl⟩,
    C6_hash_position_fidelity 25 ext40 (fun s => rfl) rstC6 wstC6 hbase
      resOutC6 rstStepC6 wstStepC6 runC6⟩

end TheoremsC6
